import Mathlib

/-!
# NNStreamer single-shot C API (`nnstreamer-capi-single-new.c`)

A shallow embedding of the single-shot handle: the validity check on the magic
tag, the worker thread `invoke_thread` cut into the critical sections it runs
under the handle mutex, and the API calls `ml_single_open`, `ml_single_close`,
`ml_single_invoke`, `ml_single_get_input_info`, `ml_single_get_output_info`
and `ml_single_set_timeout`.

Conventions of the embedding:

* a C pointer is an `Option` (`none` is `NULL`); a pointer to a handle carries
  the contents of the handle it points to, and every call returns the contents
  after the call;
* the caller-owned output slots (`ml_tensors_data_h *`) live in a memory
  indexed by address, `proc.slots`;
* the handle mutex makes each stretch of code between a lock and the next
  unlock or condition wait atomic; each such stretch is one function here, and
  what the invoke thread and other callers do while a caller sits in
  `g_cond_wait_until` is a list of `wait_action`s;
* functions, types and constants that the file uses but that are declared in
  headers outside it are parameters (`collaborators`,
  `GTensorFilterSingleClass`) or are modelled as the doc comment of each one
  says.
-/

namespace MlSingle

/-! ## Status codes and tensor metadata -/

/-- Modelled from the spec: the error kinds of section 7 (`ml_error_e` is
declared in a header that is not part of the sources). `ML_ERROR_INVALID_HANDLE`
is the kind the spec calls `InvalidHandle`; no statement of the C file mentions
it. -/
inductive ml_error_e
  | ML_ERROR_NONE
  | ML_ERROR_INVALID_PARAMETER
  | ML_ERROR_INVALID_HANDLE
  | ML_ERROR_NOT_SUPPORTED
  | ML_ERROR_TRY_AGAIN
  | ML_ERROR_TIMED_OUT
  | ML_ERROR_UNKNOWN
  deriving DecidableEq, Repr

open ml_error_e

/-- Modelled from the spec: the element type of a tensor is an enumerated set
(`ml_tensor_type_e`, declared outside the sources). -/
inductive ml_tensor_type_e
  | ML_TENSOR_TYPE_INT32
  | ML_TENSOR_TYPE_UINT32
  | ML_TENSOR_TYPE_INT16
  | ML_TENSOR_TYPE_UINT16
  | ML_TENSOR_TYPE_INT8
  | ML_TENSOR_TYPE_UINT8
  | ML_TENSOR_TYPE_FLOAT64
  | ML_TENSOR_TYPE_FLOAT32
  | ML_TENSOR_TYPE_INT64
  | ML_TENSOR_TYPE_UINT64
  | ML_TENSOR_TYPE_UNKNOWN
  deriving DecidableEq, Repr

open ml_tensor_type_e

/-- Modelled from the spec: the byte width of one element of each type (the
`type_width` of `size = type_width * product(dimensions)`). -/
def type_width : ml_tensor_type_e → Nat
  | ML_TENSOR_TYPE_INT32 => 4
  | ML_TENSOR_TYPE_UINT32 => 4
  | ML_TENSOR_TYPE_INT16 => 2
  | ML_TENSOR_TYPE_UINT16 => 2
  | ML_TENSOR_TYPE_INT8 => 1
  | ML_TENSOR_TYPE_UINT8 => 1
  | ML_TENSOR_TYPE_FLOAT64 => 8
  | ML_TENSOR_TYPE_FLOAT32 => 4
  | ML_TENSOR_TYPE_INT64 => 8
  | ML_TENSOR_TYPE_UINT64 => 8
  | ML_TENSOR_TYPE_UNKNOWN => 0

/-- One tensor descriptor: optional name, element type, dimensions. -/
structure ml_tensor_info_s where
  name : Option String
  type : ml_tensor_type_e
  dimension : List Nat
  deriving DecidableEq, Repr

/-- A bundle of tensor descriptors with its own count field. -/
structure ml_tensors_info_s where
  num_tensors : Nat
  info : List ml_tensor_info_s
  deriving DecidableEq, Repr

/-- The descriptor read at index `i` of the fixed array `info[]`; an index
past the filled part reads an unset descriptor. -/
def ml_tensors_info_s.at (t : ml_tensors_info_s) (i : Nat) : ml_tensor_info_s :=
  t.info.getD i ⟨none, ML_TENSOR_TYPE_UNKNOWN, []⟩

/-- Modelled from the spec: `ml_tensor_info_get_size` is declared outside the
sources; the spec gives the byte size of a tensor slot as
`size = type_width * product(dimensions)`. -/
def ml_tensor_info_get_size (info : ml_tensor_info_s) : Nat :=
  type_width info.type * info.dimension.prod

/-- One (raw buffer, byte length) pair of a tensors-data; the buffer is named
by its address. -/
structure ml_tensor_data_s where
  tensor : Option Nat
  size : Nat
  deriving DecidableEq, Repr

/-- The value behind a `ml_tensors_data_h`. -/
structure ml_tensors_data_s where
  num_tensors : Nat
  tensors : List ml_tensor_data_s
  deriving DecidableEq, Repr

/-- The pair read at index `i` of the fixed array `tensors[]`. -/
def ml_tensors_data_s.at (d : ml_tensors_data_s) (i : Nat) : ml_tensor_data_s :=
  d.tensors.getD i ⟨none, 0⟩

/-- The memory descriptor handed to the engine (`GstTensorMemory`). -/
structure GstTensorMemory where
  data : Option Nat
  size : Nat
  type : ml_tensor_type_e
  deriving DecidableEq, Repr

/-! ## The engine object and its class -/

/-- The tensor-filter element (a GObject defined outside the sources): the
state of the object, which only the collaborators read and write. -/
structure GTensorFilterSingle where
  obj : Nat
  deriving DecidableEq, Repr

/-- The metadata record of the streaming layer (`GstTensorsInfo`). -/
structure GstTensorsInfo where
  num_tensors : Nat
  info : List ml_tensor_info_s
  deriving DecidableEq, Repr

/-- `ml_nnfw_type_e`: the framework kinds the file names, and the others. -/
inductive ml_nnfw_type_e
  | ML_NNFW_TYPE_ANY
  | ML_NNFW_TYPE_CUSTOM_FILTER
  | ML_NNFW_TYPE_TENSORFLOW_LITE
  | ML_NNFW_TYPE_TENSORFLOW
  | ML_NNFW_TYPE_NNFW
  deriving DecidableEq, Repr

open ml_nnfw_type_e

/-- The virtual functions of the class of the tensor-filter element, as the
file calls them (`klass->start`, `klass->stop`, `klass->invoke`,
`klass->input_configured`, `klass->output_configured`). `invoke` answers
`none` for `FALSE` and, for `TRUE`, the buffers it stored in
`out_tensors[i].data`. -/
structure GTensorFilterSingleClass where
  start : GTensorFilterSingle → Bool × GTensorFilterSingle
  stop : GTensorFilterSingle → GTensorFilterSingle
  invoke : Option GTensorFilterSingle → List GstTensorMemory → List GstTensorMemory →
    Option (List (Option Nat))
  input_configured : GTensorFilterSingle → Bool
  output_configured : GTensorFilterSingle → Bool

/-! ## The handle -/

/-- `ML_SINGLE_MAGIC`. -/
def ML_SINGLE_MAGIC : Nat := 0xfeedfeed

/-- `SINGLE_DEFAULT_TIMEOUT`: 3 seconds, in milliseconds. -/
def SINGLE_DEFAULT_TIMEOUT : Nat := 3000

/-- States for the invoke thread. -/
inductive thread_state
  | IDLE
  | RUNNING
  | JOIN_REQUESTED
  | ERROR
  deriving DecidableEq, Repr

open thread_state

/-- The integer value of each enumerator, for the ordered comparisons
`state <= RUNNING` and `state >= JOIN_REQUESTED`. -/
def thread_state.toNat : thread_state → Nat
  | IDLE => 0
  | RUNNING => 1
  | JOIN_REQUESTED => 2
  | ERROR => 3

/-- The fields of `ml_single`. The mutex and the condition carry no data: the
mutex is the atomicity of the sections below. `input` holds the tensors-data
the stored handle points to, `output` the address of the caller's slot. -/
structure ml_single where
  filter : Option GTensorFilterSingle
  in_info : ml_tensors_info_s
  out_info : ml_tensors_info_s
  magic : Nat
  thread : Option Nat
  input : Option ml_tensors_data_s
  output : Option Nat
  timeout : Nat
  state : thread_state
  ignore_output : Bool
  status : ml_error_e
  deriving DecidableEq, Repr

/-- Modelled from the spec: `check_feature_state` is a preprocessor definition
of a private header outside the sources; the spec describes no feature gate in
front of any operation, so it lets every call through (`none`: no early
return). -/
def check_feature_state : Option ml_error_e := none

/-- `ML_SINGLE_GET_VALID_HANDLE_LOCKED (single_h, single, reset)`: the handle
is accepted only when its magic equals `ML_SINGLE_MAGIC`; otherwise the
enclosing function returns `ML_ERROR_INVALID_PARAMETER`. With `reset` the magic
is cleared. On `ok` the handle mutex is held. -/
def ML_SINGLE_GET_VALID_HANDLE_LOCKED (single : ml_single) (reset : Bool) :
    Except ml_error_e ml_single :=
  if single.magic ≠ ML_SINGLE_MAGIC then
    .error ML_ERROR_INVALID_PARAMETER
  else if reset then
    .ok { single with magic := 0 }
  else
    .ok single

/-- `ml_single_set_timeout (single, timeout)`. The parameter is an
`unsigned int`: the value the function tests and stores is the argument
reduced modulo 2^32 (the cast to `guint` keeps it). -/
def ml_single_set_timeout (single : Option ml_single) (timeout : Nat) :
    ml_error_e × Option ml_single :=
  match check_feature_state with
  | some e => (e, single)
  | none =>
    match single with
    | none => (ML_ERROR_INVALID_PARAMETER, none)
    | some h =>
      if timeout % 2 ^ 32 = 0 then (ML_ERROR_INVALID_PARAMETER, some h)
      else
        match ML_SINGLE_GET_VALID_HANDLE_LOCKED h false with
        | .error e => (e, some h)
        | .ok single_h =>
          (ML_ERROR_NONE, some { single_h with timeout := timeout % 2 ^ 32 })

/-! ## Collaborators -/

/-- Everything the file calls that is defined outside it: the class lookup,
GObject construction and properties, the helpers on tensors-info and
tensors-data, model-file and framework checks, thread creation. Each field is
the function of the same name; a `NULL` result is `none`.
`data_create_status` is the status `ml_tensors_data_create_no_alloc` returns
for a given tensors-info. -/
structure collaborators where
  g_type_class_peek : Option GTensorFilterSingleClass
  g_object_new : Option GTensorFilterSingle
  g_object_set : GTensorFilterSingle → List (String × Option String) → GTensorFilterSingle
  g_object_get : Option GTensorFilterSingle → String → Option String
  g_thread_try_new : Option Nat
  data_create_status : ml_tensors_info_s → ml_error_e
  ml_tensors_info_is_valid : ml_tensors_info_s → Bool
  ml_tensors_info_clone : ml_tensors_info_s → ml_error_e × ml_tensors_info_s
  ml_validate_model_file : Option String → ml_nnfw_type_e → ml_error_e × ml_nnfw_type_e
  ml_check_nnfw_availability : ml_nnfw_type_e → Nat → ml_error_e × Bool
  ml_tensors_info_copy_from_ml : ml_tensors_info_s → GstTensorsInfo
  ml_tensors_info_copy_from_gst : GstTensorsInfo → ml_tensors_info_s
  gst_tensors_info_get_dimensions_string : GstTensorsInfo → Option String
  gst_tensors_info_get_types_string : GstTensorsInfo → Option String
  gst_tensors_info_get_names_string : GstTensorsInfo → Option String
  gst_tensors_info_parse_dimensions_string : GstTensorsInfo → Option String → Nat × GstTensorsInfo
  gst_tensors_info_parse_types_string : GstTensorsInfo → Option String → Nat × GstTensorsInfo
  gst_tensors_info_parse_names_string : GstTensorsInfo → Option String → Nat × GstTensorsInfo

/-! ## Memory outside the handle, and the invoke thread -/

/-- Where the invoke thread stands: created and not yet running, blocked in
`g_cond_wait`, inside `klass->invoke` (both with the mutex released), or
returned. -/
inductive worker_pc
  | created
  | waiting
  | invoking
  | exited
  deriving DecidableEq, Repr

open worker_pc

/-- The locals of `invoke_thread` that live across its critical sections. -/
structure invoke_thread_locals where
  pc : worker_pc
  in_tensors : List GstTensorMemory
  out_tensors : List GstTensorMemory
  status : ml_error_e
  deriving DecidableEq, Repr

/-- The locals of a thread that `g_thread_try_new` has just created
(`status = ML_ERROR_NONE`). -/
def invoke_thread_created : invoke_thread_locals :=
  ⟨created, [], [], ML_ERROR_NONE⟩

/-- The memory a handle shares with its callers and its thread: the output
slots of the callers by address, the buffers released so far, the locals of
the invoke thread. -/
structure proc where
  slots : Nat → Option ml_tensors_data_s
  freed : List Nat
  worker : invoke_thread_locals

/-- A store through a `ml_tensors_data_h *`: `*slot = v`. A store through
`NULL` is not modelled (it stores nothing). -/
def proc.store (p : proc) (slot : Option Nat) (v : Option ml_tensors_data_s) : proc :=
  match slot with
  | some a => { p with slots := Function.update p.slots a v }
  | none => p

/-- A load through a `ml_tensors_data_h *`: `*slot`. -/
def proc.load (p : proc) (slot : Option Nat) : Option ml_tensors_data_s :=
  match slot with
  | some a => p.slots a
  | none => none

/-- Modelled from the spec: `ml_tensors_data_create_no_alloc` is declared
outside the sources. The spec: it allocates a fresh TensorsData sized from the
given TensorsInfo (same count, declared byte size per slot, no buffer yet); if
allocation fails the status reflects that failure. `status` is the status the
call returns. -/
def ml_tensors_data_create_no_alloc (status : ml_error_e) (info : ml_tensors_info_s) :
    ml_error_e × Option ml_tensors_data_s :=
  if status = ML_ERROR_NONE then
    (ML_ERROR_NONE, some ⟨info.num_tensors,
      (List.range info.num_tensors).map fun i => ⟨none, ml_tensor_info_get_size (info.at i)⟩⟩)
  else (status, none)

/-- Modelled from the spec: `ml_tensors_data_destroy` is declared outside the
sources; destroying a tensors-data releases the buffers it owns. -/
def ml_tensors_data_destroy (d : ml_tensors_data_s) (p : proc) : proc :=
  { p with freed := p.freed ++ d.tensors.filterMap fun t => t.tensor }

/-- Lines 138-142: the input descriptors the thread builds from the pending
input (a pending `NULL` input is not modelled: no descriptor). -/
def setup_in_tensors (h : ml_single) : List GstTensorMemory :=
  match h.input with
  | none => []
  | some in_data =>
    (List.range in_data.num_tensors).map fun i =>
      ⟨(in_data.at i).tensor, (in_data.at i).size, (h.in_info.at i).type⟩

/-- Lines 145-151: the output descriptors, with `data = NULL`. -/
def setup_out_tensors (h : ml_single) : List GstTensorMemory :=
  (List.range h.out_info.num_tensors).map fun i =>
    ⟨none, ml_tensor_info_get_size (h.out_info.at i), (h.out_info.at i).type⟩

/-- Label `exit` of `invoke_thread`. -/
def invoke_thread_exit (h : ml_single) (p : proc) : ml_single × proc :=
  (if h.state ≠ ERROR then { h with state := IDLE } else h,
   { p with worker := { p.worker with pc := exited } })

/-- The inner loop once its condition `state != RUNNING` is false: build the
descriptors, release the mutex and enter `klass->invoke`. -/
def invoke_thread_setup (h : ml_single) (p : proc) : ml_single × proc :=
  (h, { p with worker := { p.worker with
          pc := invoking, in_tensors := setup_in_tensors h,
          out_tensors := setup_out_tensors h } })

/-- The loop head, reached with the mutex held: `while (state <= RUNNING)`,
then `while (state != RUNNING)` whose body starts with `g_cond_wait`. -/
def invoke_thread_loop (h : ml_single) (p : proc) : ml_single × proc :=
  if h.state.toNat ≤ RUNNING.toNat then
    if h.state ≠ RUNNING then
      (h, { p with worker := { p.worker with pc := waiting } })
    else invoke_thread_setup h p
  else invoke_thread_exit h p

/-- The section that runs when `g_cond_wait` returns: leave for `exit` when
`state >= JOIN_REQUESTED`, otherwise test the inner loop condition again. -/
def invoke_thread_woken (h : ml_single) (p : proc) : ml_single × proc :=
  if JOIN_REQUESTED.toNat ≤ h.state.toNat then invoke_thread_exit h p
  else if h.state ≠ RUNNING then
    (h, { p with worker := { p.worker with pc := waiting } })
  else invoke_thread_setup h p

/-- The start of `invoke_thread`: take the mutex, look the class up, enter
the loop. -/
def invoke_thread (E : collaborators) (h : ml_single) (p : proc) : ml_single × proc :=
  match E.g_type_class_peek with
  | none => invoke_thread_exit { h with state := ERROR } p
  | some _ => invoke_thread_loop h p

/-- Label `wait_for_next`: store the local `status`, go back to `IDLE` from
`RUNNING`, broadcast. -/
def wait_for_next (h : ml_single) (p : proc) : ml_single × proc :=
  let h1 := { h with status := p.worker.status }
  (if h1.state = RUNNING then { h1 with state := IDLE } else h1, p)

/-- Lines 173-176: `out_data->tensors[i].tensor = out_tensors[i].data` for
every `i < n`; the other entries stay. -/
def set_result (out_data : ml_tensors_data_s) (out_tensors : List GstTensorMemory) (n : Nat) :
    ml_tensors_data_s :=
  { out_data with
    tensors := ((List.range n).map fun i =>
        { out_data.at i with
          tensor := (out_tensors.getD i ⟨none, 0, ML_TENSOR_TYPE_UNKNOWN⟩).data })
      ++ out_data.tensors.drop n }

/-- Lines 155-184, from the return of `klass->invoke` to the label
`wait_for_next`: on `FALSE` the local status becomes
`ML_ERROR_INVALID_PARAMETER`; on `TRUE` the output is created and filled
unless `ignore_output` is set, in which case the buffers of the engine are
released. -/
def invoke_thread_result (E : collaborators) (klass : GTensorFilterSingleClass)
    (h : ml_single) (p : proc) : ml_single × proc :=
  match klass.invoke h.filter p.worker.in_tensors p.worker.out_tensors with
  | none =>
    (h, { p with worker := { p.worker with status := ML_ERROR_INVALID_PARAMETER } })
  | some bufs =>
    let out_tensors := (List.range p.worker.out_tensors.length).map fun i =>
      { p.worker.out_tensors.getD i ⟨none, 0, ML_TENSOR_TYPE_UNKNOWN⟩ with
        data := bufs.getD i none }
    let p1 := { p with worker := { p.worker with out_tensors := out_tensors } }
    if h.ignore_output = false then
      let r := ml_tensors_data_create_no_alloc (E.data_create_status h.out_info) h.out_info
      let p2 := { p1 with worker := { p1.worker with status := r.1 } }
      if r.1 ≠ ML_ERROR_NONE then (h, p2.store h.output none)
      else
        let p3 := p2.store h.output r.2
        match p3.load h.output with
        | some out_data =>
          (h, p3.store h.output
            (some (set_result out_data out_tensors h.out_info.num_tensors)))
        | none => (h, p3)
    else
      (h, { p1 with freed := p1.freed ++
              ((List.range h.out_info.num_tensors).filterMap fun i =>
                (out_tensors.getD i ⟨none, 0, ML_TENSOR_TYPE_UNKNOWN⟩).data) })

/-- The section that runs when `klass->invoke` returns: handle the result,
`wait_for_next`, and the loop head again. -/
def invoke_thread_invoked (E : collaborators) (klass : GTensorFilterSingleClass)
    (h : ml_single) (p : proc) : ml_single × proc :=
  let r := invoke_thread_result E klass h p
  let w := wait_for_next r.1 r.2
  invoke_thread_loop w.1 w.2

/-- The sections of the invoke thread, named by what starts them. -/
inductive wait_event
  | thread_starts
  | cond_returns
  | engine_returns
  deriving DecidableEq, Repr

open wait_event

/-- One section of the invoke thread; an event that does not fit the place
where the thread stands changes nothing. The local `klass` of the thread is
the class `g_type_class_peek` answers: a thread that stands inside
`klass->invoke` found one when it started. -/
def invoke_thread_step (E : collaborators) (ev : wait_event) (s : ml_single × proc) :
    ml_single × proc :=
  match ev, s.2.worker.pc with
  | thread_starts, created => invoke_thread E s.1 s.2
  | cond_returns, waiting => invoke_thread_woken s.1 s.2
  | engine_returns, invoking =>
    match E.g_type_class_peek with
    | some klass => invoke_thread_invoked E klass s.1 s.2
    | none => s
  | _, _ => s

/-- Sections of the invoke thread run in order. -/
def invoke_thread_run (E : collaborators) (evs : List wait_event) (s : ml_single × proc) :
    ml_single × proc :=
  evs.foldl (fun s ev => invoke_thread_step E ev s) s

/-! ## The API calls -/

/-- Lines 554-563: every tensor of the input has a buffer and the byte size
the input info declares for its index. -/
def input_sizes_ok (in_data : ml_tensors_data_s) (in_info : ml_tensors_info_s) : Bool :=
  (List.range in_data.num_tensors).all fun i =>
    (in_data.at i).tensor.isSome &&
      decide ((in_data.at i).size = ml_tensor_info_get_size (in_info.at i))

/-- `ml_single_invoke` from its entry to `g_cond_wait_until` (lines 528-578).
The result is `inl (status, handle, memory)` when the call has returned with
that status, `inr (handle, memory)` when the request is stored and the caller
enters the wait. -/
def ml_single_invoke_request (single : Option ml_single) (input : Option ml_tensors_data_s)
    (output : Option Nat) (p : proc) :
    (ml_error_e × Option ml_single × proc) ⊕ (ml_single × proc) :=
  match check_feature_state with
  | some e => .inl (e, single, p)
  | none =>
    match single, input, output with
    | some h, some in_data, some out =>
      match ML_SINGLE_GET_VALID_HANDLE_LOCKED h false with
      | .error e => .inl (e, some h, p)
      | .ok single_h =>
        let p1 := p.store (some out) none
        if single_h.filter.isNone ∨ JOIN_REQUESTED.toNat ≤ single_h.state.toNat then
          .inl (ML_ERROR_INVALID_PARAMETER, some single_h, p1)
        else if in_data.num_tensors ≠ single_h.in_info.num_tensors then
          .inl (ML_ERROR_INVALID_PARAMETER, some single_h, p1)
        else if input_sizes_ok in_data single_h.in_info = false then
          .inl (ML_ERROR_INVALID_PARAMETER, some single_h, p1)
        else if single_h.state ≠ IDLE then
          .inl (ML_ERROR_TRY_AGAIN, some single_h, p1)
        else
          .inr ({ single_h with
                  input := some in_data, output := some out,
                  state := RUNNING, ignore_output := false },
                p1)
    | _, _, _ => .inl (ML_ERROR_INVALID_PARAMETER, single, p)

/-- `ml_single_invoke` from the return of `g_cond_wait_until` to the end
(lines 579-596); `signalled` is what `g_cond_wait_until` returned. -/
def ml_single_invoke_wakeup (signalled : Bool) (single_h : ml_single) (p : proc) :
    ml_error_e × ml_single × proc :=
  if signalled then (single_h.status, single_h, p)
  else
    let h1 := { single_h with ignore_output := true }
    match p.load h1.output with
    | some d => (ML_ERROR_TIMED_OUT, h1, (ml_tensors_data_destroy d p).store h1.output none)
    | none => (ML_ERROR_TIMED_OUT, h1, p)

/-- `ml_single_close` from its entry to the unlock that precedes
`g_thread_join` (lines 488-493), on a non-null handle: the tag is checked and
cleared, the state becomes `JOIN_REQUESTED`, the condition is broadcast. -/
def ml_single_close_request (h : ml_single) : Except ml_error_e ml_single :=
  match ML_SINGLE_GET_VALID_HANDLE_LOCKED h true with
  | .error e => .error e
  | .ok single_h => .ok { single_h with state := JOIN_REQUESTED }

/-- What can take the handle mutex while a caller has released it inside
`g_cond_wait_until`: a section of the invoke thread, or a section of a call
another thread makes on the same handle: `ml_single_invoke` from its entry to
its own wait or return (`invoke_request`), the end of an `ml_single_invoke`
that has been waiting (`invoke_wakeup`, with what its wait returned),
`ml_single_set_timeout`, and `ml_single_close` up to its join
(`close_request`). The two info queries write nothing in the handle. What
`ml_single_close` does after the join (it clears the mutex and frees the
handle) is not a section under the mutex: a caller still inside its wait at
that point uses freed memory, which has no defined behaviour. -/
inductive wait_action
  | thread (ev : wait_event)
  | invoke_request (input : Option ml_tensors_data_s) (output : Option Nat)
  | invoke_wakeup (signalled : Bool)
  | set_timeout (timeout : Nat)
  | close_request
  deriving DecidableEq, Repr

/-- One section run under the handle mutex during a wait. -/
def wait_step (E : collaborators) (a : wait_action) (s : ml_single × proc) :
    ml_single × proc :=
  match a with
  | .thread ev => invoke_thread_step E ev s
  | .invoke_request input output =>
    match ml_single_invoke_request (some s.1) input output s.2 with
    | .inl returned => (returned.2.1.getD s.1, returned.2.2)
    | .inr stored => stored
  | .invoke_wakeup signalled => (ml_single_invoke_wakeup signalled s.1 s.2).2
  | .set_timeout timeout => ((ml_single_set_timeout (some s.1) timeout).2.getD s.1, s.2)
  | .close_request =>
    match ml_single_close_request s.1 with
    | .error _ => s
    | .ok h => (h, s.2)

/-- The sections that run, in order, during one wait. -/
def wait_run (E : collaborators) (during_wait : List wait_action) (s : ml_single × proc) :
    ml_single × proc :=
  during_wait.foldl (fun s a => wait_step E a s) s

/-- `ml_single_invoke (single, input, output)`. `during_wait` lists the
sections that take the handle mutex while the caller is inside
`g_cond_wait_until` and until it has the mutex again, `signalled` is the value
that wait returns. -/
def ml_single_invoke (E : collaborators) (single : Option ml_single)
    (input : Option ml_tensors_data_s) (output : Option Nat) (p : proc)
    (during_wait : List wait_action) (signalled : Bool) :
    ml_error_e × Option ml_single × proc :=
  match ml_single_invoke_request single input output p with
  | .inl returned => returned
  | .inr stored =>
    let s := wait_run E during_wait stored
    let r := ml_single_invoke_wakeup signalled s.1 s.2
    (r.1, some r.2.1, r.2.2)

/-- `g_thread_join (single_h->thread)`: the caller is blocked until the invoke
thread has returned; the thread runs the one section that follows the place
where it stands. Joining `NULL` returns at once. -/
def g_thread_join (E : collaborators) (h : ml_single) (p : proc) : ml_single × proc :=
  match h.thread with
  | none => (h, p)
  | some _ =>
    match p.worker.pc with
    | created => invoke_thread_step E thread_starts (h, p)
    | waiting => invoke_thread_step E cond_returns (h, p)
    | invoking => invoke_thread_step E engine_returns (h, p)
    | exited => (h, p)

/-- Modelled from the spec: `ml_tensors_info_free` is declared outside the
sources; `close` frees both TensorsInfo, which leaves an empty one. -/
def ml_tensors_info_free : ml_tensors_info_s := ⟨0, []⟩

/-- `ml_single_close (single)`. The contents returned for the handle are the
last values of its fields before `g_free`. The engine object is stopped and
dropped, so what `klass->stop` leaves in it is not kept. -/
def ml_single_close (E : collaborators) (single : Option ml_single) (p : proc) :
    ml_error_e × Option ml_single × proc :=
  match check_feature_state with
  | some e => (e, single, p)
  | none =>
    match single with
    | none => (ML_ERROR_INVALID_PARAMETER, none, p)
    | some h =>
      match ml_single_close_request h with
      | .error e => (e, some h, p)
      | .ok single_h =>
        let s := g_thread_join E single_h p
        let h1 := if s.1.filter.isSome then { s.1 with filter := none } else s.1
        (ML_ERROR_NONE,
         some { h1 with in_info := ml_tensors_info_free, out_info := ml_tensors_info_free },
         s.2)

/-- `gst_tensors_info_init`: an empty record. -/
def gst_tensors_info_init : GstTensorsInfo := ⟨0, []⟩

/-- Lines 623-646 and 679-702: the record parsed from the three properties
`name`, `name ++ "type"`, `name ++ "name"` of the filter. -/
def parse_filter_info (E : collaborators) (filter : Option GTensorFilterSingle)
    (dim_prop type_prop name_prop : String) : GstTensorsInfo :=
  let g0 := gst_tensors_info_init
  let r1 := E.gst_tensors_info_parse_dimensions_string g0 (E.g_object_get filter dim_prop)
  let g1 := { r1.2 with num_tensors := r1.1 }
  let r2 := E.gst_tensors_info_parse_types_string g1 (E.g_object_get filter type_prop)
  let r3 := E.gst_tensors_info_parse_names_string r2.2 (E.g_object_get filter name_prop)
  r3.2

/-- `ml_single_get_input_info (single, info)`; the third component is the
tensors-info stored through `info`. -/
def ml_single_get_input_info (E : collaborators) (single : Option ml_single)
    (info : Option Nat) : ml_error_e × Option ml_single × Option ml_tensors_info_s :=
  match check_feature_state with
  | some e => (e, single, none)
  | none =>
    match single, info with
    | some h, some _ =>
      match ML_SINGLE_GET_VALID_HANDLE_LOCKED h false with
      | .error e => (e, some h, none)
      | .ok single_h =>
        let gst_info := parse_filter_info E single_h.filter "input" "inputtype" "inputname"
        (ML_ERROR_NONE, some single_h, some (E.ml_tensors_info_copy_from_gst gst_info))
    | _, _ => (ML_ERROR_INVALID_PARAMETER, single, none)

/-- `ml_single_get_output_info (single, info)`. -/
def ml_single_get_output_info (E : collaborators) (single : Option ml_single)
    (info : Option Nat) : ml_error_e × Option ml_single × Option ml_tensors_info_s :=
  match check_feature_state with
  | some e => (e, single, none)
  | none =>
    match single, info with
    | some h, some _ =>
      match ML_SINGLE_GET_VALID_HANDLE_LOCKED h false with
      | .error e => (e, some h, none)
      | .ok single_h =>
        let gst_info := parse_filter_info E single_h.filter "output" "outputtype" "outputname"
        (ML_ERROR_NONE, some single_h, some (E.ml_tensors_info_copy_from_gst gst_info))
    | _, _ => (ML_ERROR_INVALID_PARAMETER, single, none)

/-- `ml_single_set_inout_tensors_info (object, prefix, tensors_info)`, with
`pfx` for the parameter `prefix`; `g_strdup_printf` gives the two derived
property names. -/
def ml_single_set_inout_tensors_info (E : collaborators) (object : GTensorFilterSingle)
    (pfx : String) (tensors_info : ml_tensors_info_s) : ml_error_e × GTensorFilterSingle :=
  let info := E.ml_tensors_info_copy_from_ml tensors_info
  let str_dim := E.gst_tensors_info_get_dimensions_string info
  let str_type := E.gst_tensors_info_get_types_string info
  let str_name := E.gst_tensors_info_get_names_string info
  let str_type_name := pfx ++ "type"
  let str_name_name := pfx ++ "name"
  if str_dim.isNone ∨ str_type.isNone ∨ str_name.isNone then
    (ML_ERROR_INVALID_PARAMETER, object)
  else
    (ML_ERROR_NONE,
     E.g_object_set object [(pfx, str_dim), (str_type_name, str_type), (str_name_name, str_name)])

/-- The memory `g_new0 (ml_single, 1)` returns: every field zero. -/
def g_new0_ml_single : ml_single :=
  { filter := none, in_info := ⟨0, []⟩, out_info := ⟨0, []⟩, magic := 0, thread := none,
    input := none, output := none, timeout := 0, state := IDLE, ignore_output := false,
    status := ML_ERROR_NONE }

/-- Modelled from the spec: `ml_tensors_info_initialize` is declared outside
the sources; it leaves an empty tensors-info, to be filled by the clone that
follows. -/
def ml_tensors_info_initialize : ml_tensors_info_s := ⟨0, []⟩

/-- Label `error` of `ml_single_open`: `ml_single_close (single_h)` and return
the status; `*single` stays `NULL`. -/
def ml_single_open_error (E : collaborators) (single_h : ml_single) (status : ml_error_e)
    (p : proc) : ml_error_e × Option (Option ml_single) × proc :=
  let r := ml_single_close E (some single_h) p
  (status, some none, r.2.2)

/-- Step 3 of `ml_single_open` (lines 322-357): the `switch (nnfw)`. A status
other than `ML_ERROR_NONE` stands for `goto error` with that status. -/
def ml_single_open_framework (E : collaborators) (filter_obj : GTensorFilterSingle)
    (model : Option String) (in_tensors_info out_tensors_info : Option ml_tensors_info_s)
    (nnfw : ml_nnfw_type_e) : ml_error_e × GTensorFilterSingle :=
  match nnfw with
  | ML_NNFW_TYPE_CUSTOM_FILTER =>
    (ML_ERROR_NONE, E.g_object_set filter_obj [("framework", some "custom"), ("model", model)])
  | ML_NNFW_TYPE_TENSORFLOW_LITE =>
    (ML_ERROR_NONE,
     E.g_object_set filter_obj [("framework", some "tensorflow-lite"), ("model", model)])
  | ML_NNFW_TYPE_TENSORFLOW =>
    match in_tensors_info, out_tensors_info with
    | some i, some o =>
      let r1 := ml_single_set_inout_tensors_info E filter_obj "input" i
      if r1.1 ≠ ML_ERROR_NONE then r1
      else
        let r2 := ml_single_set_inout_tensors_info E r1.2 "output" o
        if r2.1 ≠ ML_ERROR_NONE then r2
        else
          (ML_ERROR_NONE,
           E.g_object_set r2.2 [("framework", some "tensorflow"), ("model", model)])
    | _, _ => (ML_ERROR_INVALID_PARAMETER, filter_obj)
  | _ => (ML_ERROR_NOT_SUPPORTED, filter_obj)

/-- Step 6 of `ml_single_open` for the input side (lines 375-411).
`filter_obj` is the object `single_h->filter` points to; the result carries
the status (other than `ML_ERROR_NONE` for `goto error`), the handle and the
object. The local `in_info` is read only after `ml_single_get_input_info`
returned `ML_ERROR_NONE`, that is, once it is set. -/
def ml_single_open_in_info (E : collaborators) (klass : GTensorFilterSingleClass)
    (single_h : ml_single) (filter_obj : GTensorFilterSingle)
    (in_tensors_info : Option ml_tensors_info_s) :
    ml_error_e × ml_single × GTensorFilterSingle :=
  match in_tensors_info with
  | some ti =>
    let r := if klass.input_configured filter_obj then (ML_ERROR_NONE, filter_obj)
             else ml_single_set_inout_tensors_info E filter_obj "input" ti
    let h1 := { single_h with filter := some r.2 }
    if r.1 ≠ ML_ERROR_NONE then (r.1, h1, r.2)
    else
      let c := E.ml_tensors_info_clone ti
      (c.1, { h1 with in_info := c.2 }, r.2)
  | none =>
    if klass.input_configured filter_obj = false then
      (ML_ERROR_INVALID_PARAMETER, single_h, filter_obj)
    else
      let g := ml_single_get_input_info E (some single_h) (some 0)
      if g.1 ≠ ML_ERROR_NONE then (g.1, single_h, filter_obj)
      else
        let in_info := g.2.2.getD ml_tensors_info_initialize
        let c := E.ml_tensors_info_clone in_info
        let h1 := { single_h with in_info := c.2 }
        if c.1 ≠ ML_ERROR_NONE then (c.1, h1, filter_obj)
        else if E.ml_tensors_info_is_valid h1.in_info = false then
          (ML_ERROR_INVALID_PARAMETER, h1, filter_obj)
        else (ML_ERROR_NONE, h1, filter_obj)

/-- Step 6 of `ml_single_open` for the output side (lines 413-449). -/
def ml_single_open_out_info (E : collaborators) (klass : GTensorFilterSingleClass)
    (single_h : ml_single) (filter_obj : GTensorFilterSingle)
    (out_tensors_info : Option ml_tensors_info_s) :
    ml_error_e × ml_single × GTensorFilterSingle :=
  match out_tensors_info with
  | some ti =>
    let r := if klass.output_configured filter_obj then (ML_ERROR_NONE, filter_obj)
             else ml_single_set_inout_tensors_info E filter_obj "output" ti
    let h1 := { single_h with filter := some r.2 }
    if r.1 ≠ ML_ERROR_NONE then (r.1, h1, r.2)
    else
      let c := E.ml_tensors_info_clone ti
      (c.1, { h1 with out_info := c.2 }, r.2)
  | none =>
    if klass.output_configured filter_obj = false then
      (ML_ERROR_INVALID_PARAMETER, single_h, filter_obj)
    else
      let g := ml_single_get_output_info E (some single_h) (some 0)
      if g.1 ≠ ML_ERROR_NONE then (g.1, single_h, filter_obj)
      else
        let out_info := g.2.2.getD ml_tensors_info_initialize
        let c := E.ml_tensors_info_clone out_info
        let h1 := { single_h with out_info := c.2 }
        if c.1 ≠ ML_ERROR_NONE then (c.1, h1, filter_obj)
        else if E.ml_tensors_info_is_valid h1.out_info = false then
          (ML_ERROR_INVALID_PARAMETER, h1, filter_obj)
        else (ML_ERROR_NONE, h1, filter_obj)

/-- `ml_single_open` from the creation of the handle on (lines 305-470). -/
def ml_single_open_handle (E : collaborators) (model : Option String)
    (in_tensors_info out_tensors_info : Option ml_tensors_info_s) (nnfw : ml_nnfw_type_e)
    (p : proc) : ml_error_e × Option (Option ml_single) × proc :=
  let h0 := { g_new0_ml_single with
              magic := ML_SINGLE_MAGIC, filter := E.g_object_new,
              timeout := SINGLE_DEFAULT_TIMEOUT }
  match E.g_object_new with
  | none => ml_single_open_error E h0 ML_ERROR_INVALID_PARAMETER p
  | some filter_obj =>
    let r3 := ml_single_open_framework E filter_obj model in_tensors_info out_tensors_info nnfw
    let h3 := { h0 with filter := some r3.2 }
    if r3.1 ≠ ML_ERROR_NONE then ml_single_open_error E h3 r3.1 p
    else
      let h4 := { h3 with in_info := ml_tensors_info_initialize,
                          out_info := ml_tensors_info_initialize }
      match E.g_type_class_peek with
      | none => ml_single_open_error E h4 ML_ERROR_INVALID_PARAMETER p
      | some klass =>
        let st := klass.start r3.2
        let h5 := { h4 with filter := some st.2 }
        if st.1 = false then ml_single_open_error E h5 ML_ERROR_INVALID_PARAMETER p
        else
          let ri := ml_single_open_in_info E klass h5 st.2 in_tensors_info
          if ri.1 ≠ ML_ERROR_NONE then ml_single_open_error E ri.2.1 ri.1 p
          else
            let ro := ml_single_open_out_info E klass ri.2.1 ri.2.2 out_tensors_info
            if ro.1 ≠ ML_ERROR_NONE then ml_single_open_error E ro.2.1 ro.1 p
            else
              let h7 := { ro.2.1 with state := IDLE, ignore_output := false,
                                      thread := E.g_thread_try_new }
              match E.g_thread_try_new with
              | none => ml_single_open_error E h7 ML_ERROR_UNKNOWN p
              | some _ =>
                (ML_ERROR_NONE, some (some h7), { p with worker := invoke_thread_created })

/-- The test `info && !ml_tensors_info_is_valid (info, valid)` of lines 273
and 279. -/
def given_and_invalid (E : collaborators) (info : Option ml_tensors_info_s) : Bool :=
  match info with
  | some i => !E.ml_tensors_info_is_valid i
  | none => false

/-- `ml_single_open (single, model, input_info, output_info, nnfw, hw)`.
`single` is the pointer to the caller's handle slot, with the slot's contents;
the second component of the result is the slot after the call. -/
def ml_single_open (E : collaborators) (single : Option (Option ml_single))
    (model : Option String) (input_info output_info : Option ml_tensors_info_s)
    (nnfw : ml_nnfw_type_e) (hw : Nat) (p : proc) :
    ml_error_e × Option (Option ml_single) × proc :=
  match check_feature_state with
  | some e => (e, single, p)
  | none =>
    match single with
    | none => (ML_ERROR_INVALID_PARAMETER, none, p)
    | some _ =>
      if given_and_invalid E input_info then
        (ML_ERROR_INVALID_PARAMETER, some none, p)
      else if given_and_invalid E output_info then
        (ML_ERROR_INVALID_PARAMETER, some none, p)
      else
        let v := E.ml_validate_model_file model nnfw
        if v.1 ≠ ML_ERROR_NONE then (v.1, some none, p)
        else
          let a := E.ml_check_nnfw_availability v.2 hw
          if a.1 ≠ ML_ERROR_NONE then (a.1, some none, p)
          else if a.2 = false then (ML_ERROR_NOT_SUPPORTED, some none, p)
          else ml_single_open_handle E model input_info output_info v.2 p

/-! ## Handles in use -/

/-- The handles a caller can hold: a handle `ml_single_open` delivered
(status `ML_ERROR_NONE`, stored in the slot), as it is after any section of
its invoke thread, any request or end of `ml_single_invoke` and any
`ml_single_set_timeout`; `ml_single_close` ends the life of the handle. -/
inductive opened (E : collaborators) : ml_single → Prop
  | delivered (slot : Option ml_single) (model : Option String)
      (input_info output_info : Option ml_tensors_info_s) (nnfw : ml_nnfw_type_e) (hw : Nat)
      (p : proc) (h : ml_single) :
      (ml_single_open E (some slot) model input_info output_info nnfw hw p).1 = ML_ERROR_NONE →
      (ml_single_open E (some slot) model input_info output_info nnfw hw p).2.1
        = some (some h) →
      opened E h
  | thread (h : ml_single) (p : proc) (ev : wait_event) :
      opened E h → opened E (invoke_thread_step E ev (h, p)).1
  | refused (h : ml_single) (input : Option ml_tensors_data_s) (output : Option Nat) (p : proc)
      (status : ml_error_e) (h1 : ml_single) (p1 : proc) :
      opened E h →
      ml_single_invoke_request (some h) input output p = .inl (status, some h1, p1) →
      opened E h1
  | accepted (h : ml_single) (input : Option ml_tensors_data_s) (output : Option Nat) (p : proc)
      (h1 : ml_single) (p1 : proc) :
      opened E h → ml_single_invoke_request (some h) input output p = .inr (h1, p1) →
      opened E h1
  | wakeup (h : ml_single) (p : proc) (signalled : Bool) :
      opened E h → opened E (ml_single_invoke_wakeup signalled h p).2.1
  | timeout (h : ml_single) (t : Nat) (h1 : ml_single) :
      opened E h → (ml_single_set_timeout (some h) t).2 = some h1 → opened E h1

/-! ## Sample data

The scenario of the spec: a handle configured for two float32 inputs of
shape 1:3:3:1 and one float32 output of shape 1:4, and simple collaborators
for it. -/

/-- Two float32 tensors of shape 1:3:3:1 (36 bytes each). -/
def sample_in_info : ml_tensors_info_s :=
  ⟨2, [⟨none, ML_TENSOR_TYPE_FLOAT32, [1, 3, 3, 1]⟩, ⟨none, ML_TENSOR_TYPE_FLOAT32, [1, 3, 3, 1]⟩]⟩

/-- One float32 tensor of shape 1:4 (16 bytes). -/
def sample_out_info : ml_tensors_info_s :=
  ⟨1, [⟨none, ML_TENSOR_TYPE_FLOAT32, [1, 4, 1, 1]⟩]⟩

/-- An engine class whose `invoke` succeeds and stores one output buffer, at
address 100. -/
def sample_klass : GTensorFilterSingleClass :=
  { start := fun f => (true, f), stop := fun f => f,
    invoke := fun _ _ _ => some [some 100],
    input_configured := fun _ => true, output_configured := fun _ => true }

/-- An engine class whose `invoke` reports failure. -/
def sample_klass_failing : GTensorFilterSingleClass :=
  { sample_klass with invoke := fun _ _ _ => none }

/-- Collaborators around a given engine class, none of which fails. -/
def sample_E (klass : GTensorFilterSingleClass) : collaborators :=
  { g_type_class_peek := some klass,
    g_object_new := some ⟨0⟩,
    g_object_set := fun f _ => f,
    g_object_get := fun _ _ => none,
    g_thread_try_new := some 1,
    data_create_status := fun _ => ML_ERROR_NONE,
    ml_tensors_info_is_valid := fun _ => true,
    ml_tensors_info_clone := fun i => (ML_ERROR_NONE, i),
    ml_validate_model_file := fun _ n => (ML_ERROR_NONE, n),
    ml_check_nnfw_availability := fun _ _ => (ML_ERROR_NONE, true),
    ml_tensors_info_copy_from_ml := fun i => ⟨i.num_tensors, i.info⟩,
    ml_tensors_info_copy_from_gst := fun g => ⟨g.num_tensors, g.info⟩,
    gst_tensors_info_get_dimensions_string := fun _ => some "",
    gst_tensors_info_get_types_string := fun _ => some "",
    gst_tensors_info_get_names_string := fun _ => some "",
    gst_tensors_info_parse_dimensions_string := fun g _ => (g.num_tensors, g),
    gst_tensors_info_parse_types_string := fun g _ => (g.num_tensors, g),
    gst_tensors_info_parse_names_string := fun g _ => (g.num_tensors, g) }

/-- An open handle for the scenario: live tag, engine present, `IDLE`. -/
def sample_handle : ml_single :=
  { filter := some ⟨0⟩, in_info := sample_in_info, out_info := sample_out_info,
    magic := ML_SINGLE_MAGIC, thread := some 1, input := none, output := none,
    timeout := SINGLE_DEFAULT_TIMEOUT, state := IDLE, ignore_output := false,
    status := ML_ERROR_NONE }

/-- The memory around the sample handle: every slot `NULL`, nothing released,
the invoke thread blocked in its idle wait. -/
def sample_proc : proc :=
  { slots := fun _ => none, freed := [], worker := ⟨waiting, [], [], ML_ERROR_NONE⟩ }

/-- An input that matches `sample_in_info`: two buffers of 36 bytes. -/
def sample_input : ml_tensors_data_s :=
  ⟨2, [⟨some 10, 36⟩, ⟨some 11, 36⟩]⟩

/-- An input that declares three tensors. -/
def sample_input3 : ml_tensors_data_s :=
  ⟨3, [⟨some 10, 36⟩, ⟨some 11, 36⟩, ⟨some 12, 36⟩]⟩

/-- The contents of the sample handle after a successful `ml_single_close`. -/
def sample_closed : ml_single :=
  ((ml_single_close (sample_E sample_klass) (some sample_handle) sample_proc).2.1).getD
    sample_handle

/-- A first call on the sample handle whose wait expires while the engine is
still running: the invoke thread has woken and entered `klass->invoke`. -/
def sample_timed_out : ml_error_e × Option ml_single × proc :=
  ml_single_invoke (sample_E sample_klass) (some sample_handle) (some sample_input) (some 7)
    sample_proc [.thread cond_returns] false

/-- The contents of the sample handle when that call returns. -/
def sample_timed_out_handle : ml_single :=
  sample_timed_out.2.1.getD sample_handle

/-- The sample handle with a request in flight when `ml_single_close` has
just asked the thread to join: the tag is cleared, the state is
`JOIN_REQUESTED`, the caller of the request still waits (`ignore_output`
clear), and an older status is stored. -/
def sample_join_requested : ml_single :=
  { sample_handle with
    magic := 0, state := JOIN_REQUESTED, input := some sample_input, output := some 7,
    status := ML_ERROR_UNKNOWN }

/-- The memory around `sample_join_requested`: the invoke thread is inside
`klass->invoke` with the descriptors of the request. -/
def sample_proc_invoking : proc :=
  { sample_proc with
    worker := ⟨invoking, setup_in_tensors sample_join_requested,
      setup_out_tensors sample_join_requested, ML_ERROR_NONE⟩ }

/-- The sample handle with a request in flight, as an accepted
`ml_single_invoke` leaves it. -/
def sample_running : ml_single :=
  { sample_handle with input := some sample_input, output := some 3, state := RUNNING }

/-- What `ml_single_open` answers at the sample collaborators: the sample
handle in the slot, its invoke thread created and not yet running. -/
def sample_opened : ml_error_e × Option (Option ml_single) × proc :=
  ml_single_open (sample_E sample_klass) (some none) (some "m") (some sample_in_info)
    (some sample_out_info) ML_NNFW_TYPE_TENSORFLOW_LITE 0 sample_proc

/-- An input with the count and the sizes of `sample_in_info` whose first
tensor has no buffer. -/
def sample_input_null : ml_tensors_data_s :=
  ⟨2, [⟨none, 36⟩, ⟨some 11, 36⟩]⟩

/-- A second input that matches `sample_in_info`, in buffers 20 and 21. -/
def sample_input2 : ml_tensors_data_s :=
  ⟨2, [⟨some 20, 36⟩, ⟨some 21, 36⟩]⟩

/-- An engine class whose `invoke` reports failure for an input buffer at
address 20 and succeeds, with one output buffer at address 100, for any other
input. -/
def sample_klass_picky : GTensorFilterSingleClass :=
  { sample_klass with
    invoke := fun _ in_tensors _ =>
      if in_tensors.any (fun t => decide (t.data = some 20)) then none else some [some 100] }

/-- A call on the sample handle (slot 7) that a second caller overtakes: the
invoke thread serves the request and stores the output in slot 7, a second
`ml_single_invoke` (slot 8) is accepted, and only then the first caller, whose
wait has expired, holds the mutex again. -/
def sample_overtaken : ml_error_e × Option ml_single × proc :=
  ml_single_invoke (sample_E sample_klass) (some sample_handle) (some sample_input) (some 7)
    sample_proc
    [.thread cond_returns, .thread engine_returns, .invoke_request (some sample_input) (some 8)]
    false

/-- A call on the sample handle (slot 7, engine succeeding for it) whose
waiter holds the mutex again only after a second request (slot 8, for which
the engine fails) has been accepted and served. -/
def sample_overwritten_failure : ml_error_e × Option ml_single × proc :=
  ml_single_invoke (sample_E sample_klass_picky) (some sample_handle) (some sample_input)
    (some 7) sample_proc
    [.thread cond_returns, .thread engine_returns, .invoke_request (some sample_input2) (some 8),
     .thread cond_returns, .thread engine_returns]
    true

/-- A call on the sample handle (slot 7, engine failing for it) whose waiter
holds the mutex again only after a second request (slot 8, for which the
engine succeeds) has been accepted and served. -/
def sample_overwritten_success : ml_error_e × Option ml_single × proc :=
  ml_single_invoke (sample_E sample_klass_picky) (some sample_handle) (some sample_input2)
    (some 7) sample_proc
    [.thread cond_returns, .thread engine_returns, .invoke_request (some sample_input) (some 8),
     .thread cond_returns, .thread engine_returns]
    true

/-! ## General lemmas -/

/-- A live tag passes the validity check and, without `reset`, leaves the
handle as it is. -/
theorem valid_handle_locked (h : ml_single) (hm : h.magic = ML_SINGLE_MAGIC) :
    ML_SINGLE_GET_VALID_HANDLE_LOCKED h false = .ok h := by
  simp [ML_SINGLE_GET_VALID_HANDLE_LOCKED, hm]

/-- A tag that is not the live one fails the validity check. -/
theorem invalid_handle_locked (h : ml_single) (reset : Bool) (hm : h.magic ≠ ML_SINGLE_MAGIC) :
    ML_SINGLE_GET_VALID_HANDLE_LOCKED h reset = .error ML_ERROR_INVALID_PARAMETER := by
  simp [ML_SINGLE_GET_VALID_HANDLE_LOCKED, hm]

/-- The loop over the input tensors fails exactly when some tensor has no
buffer or a byte size other than the declared one. -/
theorem input_sizes_ok_eq_false_iff (in_data : ml_tensors_data_s) (in_info : ml_tensors_info_s) :
    input_sizes_ok in_data in_info = false ↔
      ∃ i, i < in_data.num_tensors ∧
        ((in_data.at i).tensor = none ∨
          (in_data.at i).size ≠ ml_tensor_info_get_size (in_info.at i)) := by
  unfold input_sizes_ok
  rw [← Bool.not_eq_true, List.all_eq_true]
  simp only [List.mem_range, Bool.and_eq_true, decide_eq_true_eq, not_forall, not_and_or,
    Option.isSome_iff_ne_none, ne_eq, not_not, exists_prop]

/-- The loop over the input tensors passes when every tensor has a buffer and
the declared byte size. -/
theorem input_sizes_ok_of_matching (in_data : ml_tensors_data_s) (in_info : ml_tensors_info_s)
    (hz : ∀ i, i < in_data.num_tensors →
      (in_data.at i).tensor ≠ none ∧ (in_data.at i).size = ml_tensor_info_get_size (in_info.at i)) :
    input_sizes_ok in_data in_info = true := by
  rw [← Bool.not_eq_false, input_sizes_ok_eq_false_iff]
  rintro ⟨i, hi, hbad⟩
  rcases hbad with hb | hb
  · exact (hz i hi).1 hb
  · exact hb (hz i hi).2

/-- Reading index `i < n` of an array filled by a loop over `0 .. n-1`. -/
theorem getD_map_range {α : Type} (f : Nat → α) (n i : Nat) (d : α) (hi : i < n) :
    ((List.range n).map f).getD i d = f i := by
  simp [List.getD_eq_getElem?_getD, List.getElem?_map, List.getElem?_range hi]

/-- Filling the buffers of a freshly created tensors-data of `n` slots. -/
theorem set_result_map_range (f : Nat → ml_tensor_data_s) (outs : List GstTensorMemory) (n : Nat) :
    set_result ⟨n, (List.range n).map f⟩ outs n
      = ⟨n, (List.range n).map fun i =>
          { f i with tensor := (outs.getD i ⟨none, 0, ML_TENSOR_TYPE_UNKNOWN⟩).data }⟩ := by
  unfold set_result
  have hdrop : ((List.range n).map f).drop n = [] := by
    apply List.drop_eq_nil_of_le
    simp
  simp only [hdrop, List.append_nil, ml_tensors_data_s.mk.injEq, true_and]
  apply List.map_congr_left
  intro i hi
  rw [List.mem_range] at hi
  simp only [ml_tensors_data_s.at]
  rw [getD_map_range f n i _ hi]

/-- The request part of `ml_single_invoke` on a valid handle with a live
engine in state `RUNNING`, for a matching input: `ML_ERROR_TRY_AGAIN`, the
handle untouched, the caller's new slot set to `NULL`. -/
theorem invoke_request_busy (h : ml_single) (in_data : ml_tensors_data_s) (out : Nat) (p : proc)
    (hm : h.magic = ML_SINGLE_MAGIC) (hf : h.filter.isSome = true) (hs : h.state = RUNNING)
    (hn : in_data.num_tensors = h.in_info.num_tensors)
    (hz : input_sizes_ok in_data h.in_info = true) :
    ml_single_invoke_request (some h) (some in_data) (some out) p
      = .inl (ML_ERROR_TRY_AGAIN, some h, p.store (some out) none) := by
  have hf2 : h.filter ≠ none := by
    intro hc
    simp [hc] at hf
  simp [ml_single_invoke_request, check_feature_state, valid_handle_locked h hm, hf2, hs, hn, hz,
    thread_state.toNat]

/-- The request part of `ml_single_invoke` on a valid handle with a live
engine in state `IDLE`, for a matching input: the request is stored, the
state becomes `RUNNING`, `ignore_output` is reset, and the caller goes on to
wait. -/
theorem invoke_request_accepted (h : ml_single) (in_data : ml_tensors_data_s) (out : Nat)
    (p : proc) (hm : h.magic = ML_SINGLE_MAGIC) (hf : h.filter.isSome = true)
    (hs : h.state = IDLE) (hn : in_data.num_tensors = h.in_info.num_tensors)
    (hz : input_sizes_ok in_data h.in_info = true) :
    ml_single_invoke_request (some h) (some in_data) (some out) p
      = .inr ({ h with input := some in_data, output := some out, state := RUNNING,
                       ignore_output := false },
              p.store (some out) none) := by
  have hf2 : h.filter ≠ none := by
    intro hc
    simp [hc] at hf
  simp [ml_single_invoke_request, check_feature_state, valid_handle_locked h hm, hf2, hs, hn, hz,
    thread_state.toNat]

/-- The request part of `ml_single_invoke` leaves tag and engine of the
handle alone, whether it returns or goes on to wait. -/
theorem invoke_request_frame (h : ml_single) (input : Option ml_tensors_data_s)
    (output : Option Nat) (p : proc) :
    (∀ status h1 p1, ml_single_invoke_request (some h) input output p
        = .inl (status, some h1, p1) → h1.magic = h.magic ∧ h1.filter = h.filter) ∧
    (∀ h1 p1, ml_single_invoke_request (some h) input output p = .inr (h1, p1) →
      h1.magic = h.magic ∧ h1.filter = h.filter) := by
  unfold ml_single_invoke_request
  simp only [check_feature_state]
  cases input <;> cases output
  · constructor
    · intro status h1 p1 hr
      simp only [Sum.inl.injEq, Prod.mk.injEq, Option.some.injEq] at hr
      obtain ⟨_, hr, _⟩ := hr
      subst hr
      exact ⟨rfl, rfl⟩
    · intro h1 p1 hr
      simp at hr
  · constructor
    · intro status h1 p1 hr
      simp only [Sum.inl.injEq, Prod.mk.injEq, Option.some.injEq] at hr
      obtain ⟨_, hr, _⟩ := hr
      subst hr
      exact ⟨rfl, rfl⟩
    · intro h1 p1 hr
      simp at hr
  · constructor
    · intro status h1 p1 hr
      simp only [Sum.inl.injEq, Prod.mk.injEq, Option.some.injEq] at hr
      obtain ⟨_, hr, _⟩ := hr
      subst hr
      exact ⟨rfl, rfl⟩
    · intro h1 p1 hr
      simp at hr
  · by_cases hm : h.magic = ML_SINGLE_MAGIC
    · simp only [valid_handle_locked h hm]
      constructor
      · intro status h1 p1 hr
        split_ifs at hr <;>
          simp only [Sum.inl.injEq, Prod.mk.injEq, Option.some.injEq, reduceCtorEq] at hr
        all_goals
          obtain ⟨_, hr, _⟩ := hr
          subst hr
          exact ⟨rfl, rfl⟩
      · intro h1 p1 hr
        split_ifs at hr
        simp only [Sum.inr.injEq, Prod.mk.injEq, reduceCtorEq] at hr
        obtain ⟨hr, _⟩ := hr
        subst hr
        exact ⟨rfl, rfl⟩
    · simp only [invalid_handle_locked h false hm]
      constructor
      · intro status h1 p1 hr
        simp only [Sum.inl.injEq, Prod.mk.injEq, Option.some.injEq] at hr
        obtain ⟨_, hr, _⟩ := hr
        subst hr
        exact ⟨rfl, rfl⟩
      · intro h1 p1 hr
        simp at hr

/-- The end of `ml_single_invoke` leaves tag and engine of the handle
alone. -/
theorem invoke_wakeup_frame (signalled : Bool) (h : ml_single) (p : proc) :
    (ml_single_invoke_wakeup signalled h p).2.1.magic = h.magic ∧
    (ml_single_invoke_wakeup signalled h p).2.1.filter = h.filter := by
  unfold ml_single_invoke_wakeup
  split_ifs
  · exact ⟨rfl, rfl⟩
  · simp only
    cases p.load h.output <;> exact ⟨rfl, rfl⟩

/-- The end of `ml_single_invoke` when the wait has expired: `TimedOut`,
`ignore_output` set, the slot the handle points to released and `NULL`. -/
theorem invoke_wakeup_timed_out (h : ml_single) (p : proc) (out : Nat)
    (ho : h.output = some out) :
    (ml_single_invoke_wakeup false h p).1 = ML_ERROR_TIMED_OUT ∧
    (ml_single_invoke_wakeup false h p).2.1 = { h with ignore_output := true } ∧
    (ml_single_invoke_wakeup false h p).2.2.slots out = none ∧
    (∀ a, a ≠ out → (ml_single_invoke_wakeup false h p).2.2.slots a = p.slots a) ∧
    (∀ d, p.slots out = some d →
      (ml_single_invoke_wakeup false h p).2.2.freed
        = p.freed ++ d.tensors.filterMap fun t => t.tensor) := by
  unfold ml_single_invoke_wakeup
  simp only [Bool.false_eq_true, if_false, proc.load, ho]
  cases hd : p.slots out with
  | none =>
    refine ⟨rfl, rfl, hd, fun a _ => rfl, ?_⟩
    intro d hd2
    simp at hd2
  | some d =>
    refine ⟨rfl, rfl, ?_, ?_, ?_⟩
    · simp [proc.store, ml_tensors_data_destroy]
    · intro a ha
      simp [proc.store, ml_tensors_data_destroy, Function.update, ha]
    · intro d2 hd2
      simp only [Option.some.injEq] at hd2
      subst hd2
      simp [proc.store, ml_tensors_data_destroy]

/-- `ml_single_set_timeout` leaves tag and engine of the handle alone. -/
theorem set_timeout_frame (h : ml_single) (timeout : Nat) (h1 : ml_single)
    (hr : (ml_single_set_timeout (some h) timeout).2 = some h1) :
    h1.magic = h.magic ∧ h1.filter = h.filter := by
  unfold ml_single_set_timeout at hr
  simp only [check_feature_state] at hr
  by_cases hm : h.magic = ML_SINGLE_MAGIC
  · rw [valid_handle_locked h hm] at hr
    simp only at hr
    split_ifs at hr <;> simp only [Option.some.injEq] at hr <;> subst hr <;> exact ⟨rfl, rfl⟩
  · rw [invalid_handle_locked h false hm] at hr
    simp only at hr
    split_ifs at hr <;> simp only [Option.some.injEq] at hr <;> subst hr <;> exact ⟨rfl, rfl⟩

/-! ## The invoke thread: what its sections write -/

/-- Label `exit` writes the state of the handle only. -/
theorem invoke_thread_exit_fst (h : ml_single) (p : proc) :
    (invoke_thread_exit h p).1
      = { h with state := if h.state = ERROR then ERROR else IDLE } := by
  unfold invoke_thread_exit
  by_cases hs : h.state = ERROR
  · cases h
    simp_all
  · simp [hs]

/-- The loop head writes the state of the handle only. -/
theorem invoke_thread_loop_fst (h : ml_single) (p : proc) :
    ∃ st, (invoke_thread_loop h p).1 = { h with state := st } := by
  unfold invoke_thread_loop
  split_ifs
  · exact ⟨h.state, rfl⟩
  · exact ⟨h.state, rfl⟩
  · exact ⟨_, invoke_thread_exit_fst h p⟩

/-- The section after `g_cond_wait` writes the state of the handle only. -/
theorem invoke_thread_woken_fst (h : ml_single) (p : proc) :
    ∃ st, (invoke_thread_woken h p).1 = { h with state := st } := by
  unfold invoke_thread_woken
  split_ifs
  · exact ⟨_, invoke_thread_exit_fst h p⟩
  · exact ⟨h.state, rfl⟩
  · exact ⟨h.state, rfl⟩

/-- Result handling writes no field of the handle. -/
theorem invoke_thread_result_fst (E : collaborators) (klass : GTensorFilterSingleClass)
    (h : ml_single) (p : proc) : (invoke_thread_result E klass h p).1 = h := by
  unfold invoke_thread_result
  split
  · rfl
  · simp only
    split_ifs
    · rfl
    · split <;> rfl
    · rfl

/-- Label `exit` leaves slots and released buffers as they are. -/
theorem invoke_thread_exit_mem (h : ml_single) (p : proc) :
    (invoke_thread_exit h p).2.slots = p.slots ∧ (invoke_thread_exit h p).2.freed = p.freed :=
  ⟨rfl, rfl⟩

/-- The loop head leaves slots and released buffers as they are. -/
theorem invoke_thread_loop_mem (h : ml_single) (p : proc) :
    (invoke_thread_loop h p).2.slots = p.slots ∧ (invoke_thread_loop h p).2.freed = p.freed := by
  unfold invoke_thread_loop
  split_ifs <;> exact ⟨rfl, rfl⟩

/-- The section after `g_cond_wait` leaves slots and released buffers as
they are. -/
theorem invoke_thread_woken_mem (h : ml_single) (p : proc) :
    (invoke_thread_woken h p).2.slots = p.slots ∧ (invoke_thread_woken h p).2.freed = p.freed := by
  unfold invoke_thread_woken
  split_ifs <;> exact ⟨rfl, rfl⟩

/-- With `ignore_output` set, result handling stores through no slot. -/
theorem invoke_thread_result_ignored (E : collaborators) (klass : GTensorFilterSingleClass)
    (h : ml_single) (p : proc) (hi : h.ignore_output = true) :
    (invoke_thread_result E klass h p).2.slots = p.slots := by
  unfold invoke_thread_result
  split
  · rfl
  · simp [hi]

/-- The section after `klass->invoke`, with `ignore_output` set, writes no
slot, whatever the state. -/
theorem invoke_thread_invoked_slots_ignored (E : collaborators)
    (klass : GTensorFilterSingleClass) (h : ml_single) (p : proc)
    (hi : h.ignore_output = true) :
    (invoke_thread_invoked E klass h p).2.slots = p.slots := by
  unfold invoke_thread_invoked
  simp only [wait_for_next]
  rw [(invoke_thread_loop_mem _ _).1, invoke_thread_result_ignored E klass h p hi]

/-- The section after `klass->invoke`, with `ignore_output` set: no slot is
written, and from `RUNNING` the handle is `IDLE` afterwards with the thread
back in its idle wait. -/
theorem invoke_thread_invoked_ignored (E : collaborators) (klass : GTensorFilterSingleClass)
    (h : ml_single) (p : proc) (hi : h.ignore_output = true) (hs : h.state = RUNNING) :
    (invoke_thread_invoked E klass h p).2.slots = p.slots ∧
    (invoke_thread_invoked E klass h p).2.worker.pc = waiting ∧
    ∃ stt, (invoke_thread_invoked E klass h p).1 = { h with state := IDLE, status := stt } := by
  have h1 := invoke_thread_result_fst E klass h p
  have h2 := invoke_thread_result_ignored E klass h p hi
  unfold invoke_thread_invoked
  simp only [wait_for_next, h1, hs, if_true]
  refine ⟨?_, ?_, ?_⟩
  · rw [(invoke_thread_loop_mem _ _).1, h2]
  · simp [invoke_thread_loop, thread_state.toNat]
  · exact ⟨(invoke_thread_result E klass h p).2.worker.status,
      by simp [invoke_thread_loop, thread_state.toNat]⟩

/-- The section after `klass->invoke` for a request that is still awaited
(`RUNNING`, `ignore_output` clear), when the engine succeeds with buffers
`bufs` and the output tensors-data can be created: the slot the handle points
to receives a tensors-data with the count and sizes of the output info and
the buffers of the engine, the status is `ML_ERROR_NONE`, the state `IDLE`,
and the thread is back in its idle wait. -/
theorem invoke_thread_invoked_delivers (E : collaborators) (klass : GTensorFilterSingleClass)
    (h : ml_single) (p : proc) (out : Nat) (bufs : List (Option Nat))
    (hs : h.state = RUNNING) (hi : h.ignore_output = false) (ho : h.output = some out)
    (hl : p.worker.out_tensors.length = h.out_info.num_tensors)
    (he : klass.invoke h.filter p.worker.in_tensors p.worker.out_tensors = some bufs)
    (hc : E.data_create_status h.out_info = ML_ERROR_NONE) :
    (invoke_thread_invoked E klass h p).1 = { h with state := IDLE, status := ML_ERROR_NONE } ∧
    (invoke_thread_invoked E klass h p).2.slots out
      = some ⟨h.out_info.num_tensors,
          (List.range h.out_info.num_tensors).map fun i =>
            ⟨bufs.getD i none, ml_tensor_info_get_size (h.out_info.at i)⟩⟩ ∧
    (∀ a, a ≠ out → (invoke_thread_invoked E klass h p).2.slots a = p.slots a) ∧
    (invoke_thread_invoked E klass h p).2.freed = p.freed ∧
    (invoke_thread_invoked E klass h p).2.worker.pc = waiting := by
  have hres : invoke_thread_result E klass h p
      = (h, { slots := Function.update p.slots out
                (some ⟨h.out_info.num_tensors,
                  (List.range h.out_info.num_tensors).map fun i =>
                    ⟨bufs.getD i none, ml_tensor_info_get_size (h.out_info.at i)⟩⟩),
              freed := p.freed,
              worker := { p.worker with
                out_tensors := (List.range p.worker.out_tensors.length).map fun i =>
                  { p.worker.out_tensors.getD i ⟨none, 0, ML_TENSOR_TYPE_UNKNOWN⟩ with
                    data := bufs.getD i none },
                status := ML_ERROR_NONE } }) := by
    unfold invoke_thread_result
    simp only [he, hi, hc, ml_tensors_data_create_no_alloc, if_true, ne_eq, not_true_eq_false,
      if_false, proc.store, proc.load, ho, Function.update_same, set_result_map_range,
      Function.update_idem, Prod.mk.injEq, true_and, proc.mk.injEq, and_true]
    apply congrArg
    apply congrArg some
    apply congrArg (ml_tensors_data_s.mk _)
    apply List.map_congr_left
    intro i hi2
    rw [List.mem_range] at hi2
    rw [hl, getD_map_range _ _ _ _ hi2]
  unfold invoke_thread_invoked
  rw [hres]
  simp only [wait_for_next, hs, if_true, invoke_thread_loop, thread_state.toNat]
  refine ⟨?_, ?_, ?_, ?_, ?_⟩
  · simp
  · simp
  · intro a ha
    simp [Function.update, ha]
  · simp
  · simp

/-- One section of the invoke thread writes only the state and the status of
the handle. -/
theorem invoke_thread_step_fst (E : collaborators) (ev : wait_event) (h : ml_single) (p : proc) :
    ∃ st stt, (invoke_thread_step E ev (h, p)).1 = { h with state := st, status := stt } := by
  unfold invoke_thread_step
  split
  · simp only [invoke_thread]
    split
    · exact ⟨_, h.status, invoke_thread_exit_fst _ p⟩
    · obtain ⟨st, hst⟩ := invoke_thread_loop_fst h p
      exact ⟨st, h.status, hst⟩
  · obtain ⟨st, hst⟩ := invoke_thread_woken_fst h p
    exact ⟨st, h.status, hst⟩
  · split
    · rename_i klass _
      have hfst := invoke_thread_result_fst E klass h p
      obtain ⟨st, hst⟩ := invoke_thread_loop_fst
        (wait_for_next (invoke_thread_result E klass h p).1
          (invoke_thread_result E klass h p).2).1
        (wait_for_next (invoke_thread_result E klass h p).1
          (invoke_thread_result E klass h p).2).2
      refine ⟨st, (invoke_thread_result E klass h p).2.worker.status, ?_⟩
      simp only [invoke_thread_invoked]
      rw [hst]
      simp only [wait_for_next, hfst]
      split_ifs <;> rfl
    · exact ⟨h.state, h.status, rfl⟩
  · exact ⟨h.state, h.status, rfl⟩

/-- Any run of sections of the invoke thread writes only the state and the
status of the handle. -/
theorem invoke_thread_run_fst (E : collaborators) (evs : List wait_event) (h : ml_single)
    (p : proc) :
    ∃ st stt, (invoke_thread_run E evs (h, p)).1 = { h with state := st, status := stt } := by
  induction evs generalizing h p with
  | nil => exact ⟨h.state, h.status, rfl⟩
  | cons ev evs ih =>
    obtain ⟨st, stt, hst⟩ := invoke_thread_step_fst E ev h p
    have hs : invoke_thread_step E ev (h, p)
        = ({ h with state := st, status := stt }, (invoke_thread_step E ev (h, p)).2) := by
      rw [← hst]
    obtain ⟨st2, stt2, h2⟩ := ih { h with state := st, status := stt }
      (invoke_thread_step E ev (h, p)).2
    refine ⟨st2, stt2, ?_⟩
    simp only [invoke_thread_run, List.foldl_cons] at h2 ⊢
    rw [hs, h2]

/-- The join of `ml_single_close` ends: with the state `JOIN_REQUESTED`, the
one section the invoke thread runs from where it stands takes it to its
return. -/
theorem g_thread_join_exited (E : collaborators) (h : ml_single) (p : proc) (tid : Nat)
    (ht : h.thread = some tid) (hs : h.state = JOIN_REQUESTED)
    (hk : E.g_type_class_peek.isSome = true) :
    (g_thread_join E h p).2.worker.pc = exited := by
  obtain ⟨klass, hk2⟩ := Option.isSome_iff_exists.mp hk
  unfold g_thread_join
  rw [ht]
  simp only
  cases hpc : p.worker.pc with
  | created =>
    simp [invoke_thread_step, hpc, invoke_thread, hk2, invoke_thread_loop, invoke_thread_exit, hs,
      thread_state.toNat]
  | waiting =>
    simp [invoke_thread_step, hpc, invoke_thread_woken, invoke_thread_exit, hs,
      thread_state.toNat]
  | invoking =>
    simp [invoke_thread_step, hpc, hk2, invoke_thread_invoked, wait_for_next,
      invoke_thread_result_fst, invoke_thread_loop, invoke_thread_exit, hs, thread_state.toNat]
  | exited => exact hpc

/-! ## `ml_single_open` and the handles it delivers -/

/-- Label `error` of `ml_single_open` leaves the caller's slot `NULL`. -/
theorem ml_single_open_error_eq (E : collaborators) (single_h : ml_single) (status : ml_error_e)
    (p : proc) :
    (ml_single_open_error E single_h status p).1 = status ∧
    (ml_single_open_error E single_h status p).2.1 = some none :=
  ⟨rfl, rfl⟩

/-- The switch on the framework fails for TensorFlow unless both tensors-info
are given. -/
theorem ml_single_open_framework_tensorflow (E : collaborators) (f : GTensorFilterSingle)
    (model : Option String) (i o : Option ml_tensors_info_s)
    (hnone : (ml_single_open_framework E f model i o ML_NNFW_TYPE_TENSORFLOW).1 = ML_ERROR_NONE) :
    i.isSome = true ∧ o.isSome = true := by
  cases i <;> cases o <;> simp_all [ml_single_open_framework]

/-- The input side of step 6 leaves tag and timeout alone and keeps an engine
in the handle. -/
theorem ml_single_open_in_info_frame (E : collaborators) (klass : GTensorFilterSingleClass)
    (h : ml_single) (f : GTensorFilterSingle) (ti : Option ml_tensors_info_s)
    (hf : h.filter.isSome = true) :
    (ml_single_open_in_info E klass h f ti).2.1.magic = h.magic ∧
    (ml_single_open_in_info E klass h f ti).2.1.timeout = h.timeout ∧
    (ml_single_open_in_info E klass h f ti).2.1.filter.isSome = true := by
  unfold ml_single_open_in_info
  cases ti with
  | some i =>
    simp only
    split_ifs <;> simp
  | none =>
    simp only
    split_ifs <;> exact ⟨rfl, rfl, hf⟩

/-- The output side of step 6 leaves tag and timeout alone and keeps an engine
in the handle. -/
theorem ml_single_open_out_info_frame (E : collaborators) (klass : GTensorFilterSingleClass)
    (h : ml_single) (f : GTensorFilterSingle) (ti : Option ml_tensors_info_s)
    (hf : h.filter.isSome = true) :
    (ml_single_open_out_info E klass h f ti).2.1.magic = h.magic ∧
    (ml_single_open_out_info E klass h f ti).2.1.timeout = h.timeout ∧
    (ml_single_open_out_info E klass h f ti).2.1.filter.isSome = true := by
  unfold ml_single_open_out_info
  cases ti with
  | some i =>
    simp only
    split_ifs <;> simp
  | none =>
    simp only
    split_ifs <;> exact ⟨rfl, rfl, hf⟩

/-- The two outcomes of `ml_single_open` once the handle is created: a status
other than `ML_ERROR_NONE` with the slot `NULL`, or `ML_ERROR_NONE` with the
slot holding a handle that has the live tag, an engine, a thread, state
`IDLE`, `ignore_output` clear and the default timeout. -/
theorem ml_single_open_handle_cases (E : collaborators) (model : Option String)
    (i o : Option ml_tensors_info_s) (nnfw : ml_nnfw_type_e) (p : proc) :
    ((ml_single_open_handle E model i o nnfw p).1 ≠ ML_ERROR_NONE ∧
      (ml_single_open_handle E model i o nnfw p).2.1 = some none) ∨
    ((ml_single_open_handle E model i o nnfw p).1 = ML_ERROR_NONE ∧
      ∃ h, (ml_single_open_handle E model i o nnfw p).2.1 = some (some h) ∧
        h.magic = ML_SINGLE_MAGIC ∧ h.state = IDLE ∧ h.ignore_output = false ∧
        h.timeout = SINGLE_DEFAULT_TIMEOUT ∧ h.filter.isSome = true ∧ h.thread.isSome = true ∧
        E.g_thread_try_new.isSome = true ∧
        ∃ f klass, E.g_object_new = some f ∧ E.g_type_class_peek = some klass ∧
          (ml_single_open_framework E f model i o nnfw).1 = ML_ERROR_NONE ∧
          (klass.start (ml_single_open_framework E f model i o nnfw).2).1 = true) := by
  unfold ml_single_open_handle
  simp only
  split
  · left
    exact ⟨by simp [ml_single_open_error], rfl⟩
  · rename_i filter_obj hobj
    split_ifs with h3
    · left
      exact ⟨h3, rfl⟩
    · split
      · left
        exact ⟨by simp [ml_single_open_error], rfl⟩
      · rename_i klass hk
        split_ifs with h5 h6 h7
        · left
          exact ⟨by simp [ml_single_open_error], rfl⟩
        · left
          exact ⟨h6, rfl⟩
        · left
          exact ⟨h7, rfl⟩
        · split
          · left
            exact ⟨by simp [ml_single_open_error], rfl⟩
          · rename_i tid ht
            right
            refine ⟨rfl, _, rfl, ?_⟩
            · obtain ⟨a1, a2, a3⟩ := ml_single_open_in_info_frame E klass
                { g_new0_ml_single with
                  magic := ML_SINGLE_MAGIC,
                  filter := some (klass.start (ml_single_open_framework E filter_obj model i o
                    nnfw).2).2,
                  timeout := SINGLE_DEFAULT_TIMEOUT,
                  in_info := ml_tensors_info_initialize,
                  out_info := ml_tensors_info_initialize }
                (klass.start (ml_single_open_framework E filter_obj model i o nnfw).2).2 i rfl
              obtain ⟨b1, b2, b3⟩ := ml_single_open_out_info_frame E klass _
                (ml_single_open_in_info E klass
                  { g_new0_ml_single with
                    magic := ML_SINGLE_MAGIC,
                    filter := some (klass.start (ml_single_open_framework E filter_obj model i o
                      nnfw).2).2,
                    timeout := SINGLE_DEFAULT_TIMEOUT,
                    in_info := ml_tensors_info_initialize,
                    out_info := ml_tensors_info_initialize }
                  (klass.start (ml_single_open_framework E filter_obj model i o nnfw).2).2 i).2.2
                o a3
              refine ⟨b1.trans a1, rfl, rfl, b2.trans a2, b3, ?_, ?_, filter_obj, klass, hobj, hk,
                ?_, ?_⟩
              · simp [ht]
              · simp [ht]
              · exact not_not.mp h3
              · simpa using h5

/-- The two outcomes of `ml_single_open` on a non-null slot: a status other
than `ML_ERROR_NONE` with the slot `NULL`, or `ML_ERROR_NONE` with every check
passed and the slot holding a handle that has the live tag, an engine, a
thread, state `IDLE`, `ignore_output` clear and the default timeout. -/
theorem ml_single_open_cases (E : collaborators) (slot : Option ml_single)
    (model : Option String) (input_info output_info : Option ml_tensors_info_s)
    (nnfw : ml_nnfw_type_e) (hw : Nat) (p : proc) :
    ((ml_single_open E (some slot) model input_info output_info nnfw hw p).1 ≠ ML_ERROR_NONE ∧
      (ml_single_open E (some slot) model input_info output_info nnfw hw p).2.1 = some none) ∨
    ((ml_single_open E (some slot) model input_info output_info nnfw hw p).1 = ML_ERROR_NONE ∧
      (∃ h, (ml_single_open E (some slot) model input_info output_info nnfw hw p).2.1
          = some (some h) ∧
        h.magic = ML_SINGLE_MAGIC ∧ h.state = IDLE ∧ h.ignore_output = false ∧
        h.timeout = SINGLE_DEFAULT_TIMEOUT ∧ h.filter.isSome = true ∧ h.thread.isSome = true) ∧
      given_and_invalid E input_info = false ∧ given_and_invalid E output_info = false ∧
      (E.ml_validate_model_file model nnfw).1 = ML_ERROR_NONE ∧
      E.ml_check_nnfw_availability (E.ml_validate_model_file model nnfw).2 hw
        = (ML_ERROR_NONE, true) ∧
      E.g_thread_try_new.isSome = true ∧
      (∃ f klass, E.g_object_new = some f ∧ E.g_type_class_peek = some klass ∧
        (klass.start (ml_single_open_framework E f model input_info output_info
          (E.ml_validate_model_file model nnfw).2).2).1 = true) ∧
      ((E.ml_validate_model_file model nnfw).2 = ML_NNFW_TYPE_TENSORFLOW →
        input_info.isSome = true ∧ output_info.isSome = true)) := by
  unfold ml_single_open
  simp only [check_feature_state]
  split_ifs with c1 c2 c3 c4 c5
  · left; exact ⟨by simp, rfl⟩
  · left; exact ⟨by simp, rfl⟩
  · left; exact ⟨c3, rfl⟩
  · left; exact ⟨c4, rfl⟩
  · left; exact ⟨by simp, rfl⟩
  · rcases ml_single_open_handle_cases E model input_info output_info
        (E.ml_validate_model_file model nnfw).2 p with ⟨e1, e2⟩ | ⟨s1, h, s2, s3, s4, s5, s6, s7,
          s8, s9, f, klass, s10, s11, s12, s13⟩
    · left; exact ⟨e1, e2⟩
    · right
      refine ⟨s1, ⟨h, s2, s3, s4, s5, s6, s7, s8⟩, by simpa using c1, by simpa using c2,
        not_not.mp c3, ?_, s9, ⟨f, klass, s10, s11, s13⟩, ?_⟩
      · apply Prod.ext
        · exact not_not.mp c4
        · simpa using c5
      · intro htf
        rw [htf] at s12
        exact ml_single_open_framework_tensorflow E f model input_info output_info s12

/-- A handle that `ml_single_open` delivered and that is not closed has the
live tag and an engine. -/
theorem opened_valid (E : collaborators) (h : ml_single) (ho : opened E h) :
    h.magic = ML_SINGLE_MAGIC ∧ h.filter.isSome = true := by
  induction ho with
  | delivered slot model input_info output_info nnfw hw p h hst hslot =>
    rcases ml_single_open_cases E slot model input_info output_info nnfw hw p with
      ⟨e1, _⟩ | ⟨_, ⟨h2, s2, s3, _, _, _, s7, _⟩, _⟩
    · exact absurd hst e1
    · rw [s2] at hslot
      simp only [Option.some.injEq] at hslot
      subst hslot
      exact ⟨s3, s7⟩
  | thread h p ev _ ih =>
    obtain ⟨st, stt, hs⟩ := invoke_thread_step_fst E ev h p
    rw [hs]
    exact ih
  | refused h input output p status h1 p1 _ hr ih =>
    obtain ⟨a, b⟩ := (invoke_request_frame h input output p).1 status h1 p1 hr
    rw [a, b]
    exact ih
  | accepted h input output p h1 p1 _ hr ih =>
    obtain ⟨a, b⟩ := (invoke_request_frame h input output p).2 h1 p1 hr
    rw [a, b]
    exact ih
  | wakeup h p signalled _ ih =>
    obtain ⟨a, b⟩ := invoke_wakeup_frame signalled h p
    rw [a, b]
    exact ih
  | timeout h t h1 _ hr ih =>
    obtain ⟨a, b⟩ := set_timeout_frame h t h1 hr
    rw [a, b]
    exact ih

/-! ## The checks of `ml_single_invoke` and the status it reports -/

/-- The loop over the input tensors passes exactly when every tensor has a
buffer and the declared byte size. -/
theorem input_sizes_ok_iff (in_data : ml_tensors_data_s) (in_info : ml_tensors_info_s) :
    input_sizes_ok in_data in_info = true ↔
      ∀ i, i < in_data.num_tensors →
        (in_data.at i).tensor ≠ none ∧
          (in_data.at i).size = ml_tensor_info_get_size (in_info.at i) := by
  constructor
  · intro hok i hi
    by_contra hc
    have hbad : input_sizes_ok in_data in_info = false := by
      rw [input_sizes_ok_eq_false_iff]
      refine ⟨i, hi, ?_⟩
      by_cases ht : (in_data.at i).tensor = none
      · exact Or.inl ht
      · exact Or.inr fun hsz => hc ⟨ht, hsz⟩
    rw [hok] at hbad
    exact Bool.noConfusion hbad
  · exact input_sizes_ok_of_matching in_data in_info

/-- The section after `klass->invoke` when the engine reports failure, for a
request in state `RUNNING`: the status `ML_ERROR_INVALID_PARAMETER` is
recorded in the thread and in the handle, the state goes back to `IDLE`, the
thread returns to its idle wait, and nothing else is written, whatever
`ignore_output` holds. -/
theorem invoke_thread_invoked_engine_failure (E : collaborators)
    (klass : GTensorFilterSingleClass) (h : ml_single) (p : proc)
    (hs : h.state = RUNNING)
    (he : klass.invoke h.filter p.worker.in_tensors p.worker.out_tensors = none) :
    invoke_thread_invoked E klass h p
      = ({ h with state := IDLE, status := ML_ERROR_INVALID_PARAMETER },
         { p with worker := { p.worker with
                    pc := waiting, status := ML_ERROR_INVALID_PARAMETER } }) := by
  have hres : invoke_thread_result E klass h p
      = (h, { p with worker := { p.worker with status := ML_ERROR_INVALID_PARAMETER } }) := by
    unfold invoke_thread_result
    rw [he]
  unfold invoke_thread_invoked
  rw [hres]
  simp [wait_for_next, hs, invoke_thread_loop, thread_state.toNat]

/-- Result handling leaves in the thread's local status a status other than
`ML_ERROR_TRY_AGAIN`, when the creation of the output tensors-data never
answers that status. -/
theorem invoke_thread_result_status (E : collaborators) (klass : GTensorFilterSingleClass)
    (h : ml_single) (p : proc)
    (hA : ∀ info, E.data_create_status info ≠ ML_ERROR_TRY_AGAIN)
    (hW : p.worker.status ≠ ML_ERROR_TRY_AGAIN) :
    (invoke_thread_result E klass h p).2.worker.status ≠ ML_ERROR_TRY_AGAIN := by
  have hc : (ml_tensors_data_create_no_alloc (E.data_create_status h.out_info) h.out_info).1
      ≠ ML_ERROR_TRY_AGAIN := by
    unfold ml_tensors_data_create_no_alloc
    split_ifs
    · simp
    · exact hA h.out_info
  unfold invoke_thread_result
  split
  · simp
  · simp only
    split_ifs
    · cases h.output <;> simpa [proc.store] using hc
    · cases ho : h.output with
      | none => simpa [proc.store, proc.load] using hc
      | some out =>
        simp only [proc.store, proc.load]
        split <;> simpa using hc
    · exact hW

/-- The loop head leaves the thread's local status as it is. -/
theorem invoke_thread_loop_worker_status (h : ml_single) (p : proc) :
    (invoke_thread_loop h p).2.worker.status = p.worker.status := by
  unfold invoke_thread_loop
  split_ifs <;> rfl

/-- The section after `g_cond_wait` leaves the thread's local status as it
is. -/
theorem invoke_thread_woken_worker_status (h : ml_single) (p : proc) :
    (invoke_thread_woken h p).2.worker.status = p.worker.status := by
  unfold invoke_thread_woken
  split_ifs <;> rfl

/-- One section of the invoke thread keeps the stored status and the thread's
local status other than `ML_ERROR_TRY_AGAIN`, when the creation of the output
tensors-data never answers that status. -/
theorem invoke_thread_step_status (E : collaborators) (ev : wait_event) (h : ml_single)
    (p : proc) (hA : ∀ info, E.data_create_status info ≠ ML_ERROR_TRY_AGAIN)
    (hS : h.status ≠ ML_ERROR_TRY_AGAIN) (hW : p.worker.status ≠ ML_ERROR_TRY_AGAIN) :
    (invoke_thread_step E ev (h, p)).1.status ≠ ML_ERROR_TRY_AGAIN ∧
    (invoke_thread_step E ev (h, p)).2.worker.status ≠ ML_ERROR_TRY_AGAIN := by
  unfold invoke_thread_step
  split
  · simp only [invoke_thread]
    split
    · rw [invoke_thread_exit_fst]
      exact ⟨hS, hW⟩
    · obtain ⟨st, hst⟩ := invoke_thread_loop_fst h p
      rw [hst, invoke_thread_loop_worker_status]
      exact ⟨hS, hW⟩
  · obtain ⟨st, hst⟩ := invoke_thread_woken_fst h p
    rw [hst, invoke_thread_woken_worker_status]
    exact ⟨hS, hW⟩
  · split
    · rename_i klass _
      have hr := invoke_thread_result_status E klass h p hA hW
      have hfst := invoke_thread_result_fst E klass h p
      obtain ⟨st, hst⟩ := invoke_thread_loop_fst
        (wait_for_next (invoke_thread_result E klass h p).1
          (invoke_thread_result E klass h p).2).1
        (wait_for_next (invoke_thread_result E klass h p).1
          (invoke_thread_result E klass h p).2).2
      simp only [invoke_thread_invoked]
      rw [hst, invoke_thread_loop_worker_status]
      simp only [wait_for_next, hfst]
      constructor
      · split_ifs <;> exact hr
      · exact hr
    · exact ⟨hS, hW⟩
  · exact ⟨hS, hW⟩

/-- Any run of sections of the invoke thread keeps the stored status other
than `ML_ERROR_TRY_AGAIN`, when the creation of the output tensors-data never
answers that status. -/
theorem invoke_thread_run_status (E : collaborators) (evs : List wait_event) (s : ml_single × proc)
    (hA : ∀ info, E.data_create_status info ≠ ML_ERROR_TRY_AGAIN)
    (hS : s.1.status ≠ ML_ERROR_TRY_AGAIN) (hW : s.2.worker.status ≠ ML_ERROR_TRY_AGAIN) :
    (invoke_thread_run E evs s).1.status ≠ ML_ERROR_TRY_AGAIN := by
  induction evs generalizing s with
  | nil => exact hS
  | cons ev evs ih =>
    obtain ⟨a, b⟩ := invoke_thread_step_status E ev s.1 s.2 hA hS hW
    simp only [invoke_thread_run, List.foldl_cons]
    exact ih (invoke_thread_step E ev s) a b

/-- The status the end of `ml_single_invoke` returns: the stored status when
the wait was signalled, `ML_ERROR_TIMED_OUT` otherwise. -/
theorem invoke_wakeup_status (signalled : Bool) (h : ml_single) (p : proc) :
    (ml_single_invoke_wakeup signalled h p).1
      = if signalled then h.status else ML_ERROR_TIMED_OUT := by
  unfold ml_single_invoke_wakeup
  split_ifs
  · rfl
  · simp only
    cases p.load h.output <;> rfl

/-- The three outcomes of the checks of `ml_single_invoke` on a handle with
the live tag: `ML_ERROR_INVALID_PARAMETER` when the engine is missing, the
state is `JOIN_REQUESTED` or `ERROR`, or the input does not match;
`ML_ERROR_TRY_AGAIN` when all of that is in order and the state is `RUNNING`;
the request stored when all of that is in order and the state is `IDLE`. -/
theorem invoke_request_outcome (h : ml_single) (in_data : ml_tensors_data_s) (out : Nat)
    (p : proc) (hm : h.magic = ML_SINGLE_MAGIC) :
    (ml_single_invoke_request (some h) (some in_data) (some out) p
        = .inl (ML_ERROR_INVALID_PARAMETER, some h, p.store (some out) none) ∧
      (h.filter = none ∨ h.state = JOIN_REQUESTED ∨ h.state = ERROR ∨
        in_data.num_tensors ≠ h.in_info.num_tensors ∨
        input_sizes_ok in_data h.in_info = false)) ∨
    (ml_single_invoke_request (some h) (some in_data) (some out) p
        = .inl (ML_ERROR_TRY_AGAIN, some h, p.store (some out) none) ∧
      h.filter.isSome = true ∧ h.state = RUNNING ∧
      in_data.num_tensors = h.in_info.num_tensors ∧
      input_sizes_ok in_data h.in_info = true) ∨
    (ml_single_invoke_request (some h) (some in_data) (some out) p
        = .inr ({ h with input := some in_data, output := some out, state := RUNNING,
                         ignore_output := false },
                p.store (some out) none) ∧
      h.filter.isSome = true ∧ h.state = IDLE) := by
  simp only [ml_single_invoke_request, check_feature_state, valid_handle_locked h hm]
  split_ifs with c1 c2 c3 c4
  · left
    refine ⟨rfl, ?_⟩
    rcases c1 with c | c
    · left
      simpa using c
    · right
      cases hs : h.state <;> simp [hs, thread_state.toNat] at c ⊢
  · left
    exact ⟨rfl, Or.inr (Or.inr (Or.inr (Or.inl c2)))⟩
  · left
    exact ⟨rfl, Or.inr (Or.inr (Or.inr (Or.inr c3)))⟩
  · right
    left
    have hf : h.filter.isSome = true := by
      cases hfl : h.filter
      · exact absurd (Or.inl (by simp [hfl])) c1
      · rfl
    have hst : h.state = RUNNING := by
      cases hs : h.state
      · exact absurd hs c4
      · rfl
      · exact absurd (Or.inr (by simp [hs, thread_state.toNat])) c1
      · exact absurd (Or.inr (by simp [hs, thread_state.toNat])) c1
    exact ⟨rfl, hf, hst, not_not.mp c2, by simpa using c3⟩
  · right
    right
    have hf : h.filter.isSome = true := by
      cases hfl : h.filter
      · exact absurd (Or.inl (by simp [hfl])) c1
      · rfl
    exact ⟨rfl, hf, not_not.mp c4⟩

/-! ## Sections run during a wait -/

/-- A wait during which only the invoke thread runs. -/
theorem wait_run_thread (E : collaborators) (evs : List wait_event) (s : ml_single × proc) :
    wait_run E (evs.map wait_action.thread) s = invoke_thread_run E evs s := by
  induction evs generalizing s with
  | nil => rfl
  | cons ev evs ih =>
    simp only [List.map_cons, wait_run, List.foldl_cons, invoke_thread_run, wait_step]
    exact ih _

/-- A list of sections of the invoke thread alone is the image of a list of
thread events. -/
theorem thread_only_map (l : List wait_action)
    (hl : ∀ a, a ∈ l → ∃ ev, a = wait_action.thread ev) :
    ∃ evs : List wait_event, l = evs.map wait_action.thread := by
  induction l with
  | nil => exact ⟨[], rfl⟩
  | cons a l ih =>
    obtain ⟨ev, hev⟩ := hl a (List.mem_cons_self a l)
    obtain ⟨evs, hevs⟩ := ih (fun b hb => hl b (List.mem_cons_of_mem a hb))
    refine ⟨ev :: evs, ?_⟩
    rw [hev, hevs, List.map_cons]

/-- Label `exit` never sets the state `RUNNING`. -/
theorem invoke_thread_exit_running (h : ml_single) (p : proc)
    (hr : (invoke_thread_exit h p).1.state = RUNNING) : h.state = RUNNING := by
  rw [invoke_thread_exit_fst] at hr
  simp only at hr
  split_ifs at hr

/-- The loop head never sets the state `RUNNING`. -/
theorem invoke_thread_loop_running (h : ml_single) (p : proc)
    (hr : (invoke_thread_loop h p).1.state = RUNNING) : h.state = RUNNING := by
  unfold invoke_thread_loop at hr
  split_ifs at hr
  · exact hr
  · exact hr
  · exact invoke_thread_exit_running h p hr

/-- The section after `g_cond_wait` never sets the state `RUNNING`. -/
theorem invoke_thread_woken_running (h : ml_single) (p : proc)
    (hr : (invoke_thread_woken h p).1.state = RUNNING) : h.state = RUNNING := by
  unfold invoke_thread_woken at hr
  split_ifs at hr
  · exact invoke_thread_exit_running h p hr
  · exact hr
  · exact hr

/-- The section after `klass->invoke` started from `RUNNING` ends with the
handle `IDLE` and the thread in its idle wait, whatever the engine answered. -/
theorem invoke_thread_invoked_settles (E : collaborators) (klass : GTensorFilterSingleClass)
    (h : ml_single) (p : proc) (hs : h.state = RUNNING) :
    (invoke_thread_invoked E klass h p).1.state = IDLE ∧
    (invoke_thread_invoked E klass h p).2.worker.pc = waiting := by
  have h1 := invoke_thread_result_fst E klass h p
  unfold invoke_thread_invoked
  simp only [wait_for_next, h1, hs, if_true]
  simp [invoke_thread_loop, thread_state.toNat]

/-- The section after `klass->invoke` never leaves the state `RUNNING`. -/
theorem invoke_thread_invoked_not_running (E : collaborators) (klass : GTensorFilterSingleClass)
    (h : ml_single) (p : proc) : (invoke_thread_invoked E klass h p).1.state ≠ RUNNING := by
  intro hr
  unfold invoke_thread_invoked at hr
  have h2 := invoke_thread_loop_running _ _ hr
  simp only [wait_for_next] at h2
  split_ifs at h2 with c
  · exact c h2

/-- A section of the invoke thread never sets the state `RUNNING`. -/
theorem invoke_thread_step_running (E : collaborators) (ev : wait_event) (h : ml_single)
    (p : proc) (hr : (invoke_thread_step E ev (h, p)).1.state = RUNNING) :
    h.state = RUNNING := by
  unfold invoke_thread_step at hr
  split at hr
  · simp only [invoke_thread] at hr
    split at hr
    · have h2 := invoke_thread_exit_running _ _ hr
      simp at h2
    · exact invoke_thread_loop_running h p hr
  · exact invoke_thread_woken_running h p hr
  · split at hr
    · exact absurd hr (invoke_thread_invoked_not_running E _ h p)
    · exact hr
  · exact hr

/-- The request part of `ml_single_invoke` on a non-null handle either returns
with the handle as it was, or stores the request in a handle with the live
tag; the locals of the invoke thread are not touched. -/
theorem invoke_request_cases (h : ml_single) (input : Option ml_tensors_data_s)
    (output : Option Nat) (p : proc) :
    (∃ st p1, p1.worker = p.worker ∧
      ml_single_invoke_request (some h) input output p = .inl (st, some h, p1)) ∨
    (h.magic = ML_SINGLE_MAGIC ∧ ∃ in_data out, input = some in_data ∧ output = some out ∧
      ml_single_invoke_request (some h) input output p
        = .inr ({ h with input := some in_data, output := some out, state := RUNNING,
                         ignore_output := false },
                p.store (some out) none)) := by
  cases input with
  | none =>
    left
    exact ⟨ML_ERROR_INVALID_PARAMETER, p, rfl, by cases output <;> rfl⟩
  | some in_data =>
    cases output with
    | none => exact Or.inl ⟨ML_ERROR_INVALID_PARAMETER, p, rfl, rfl⟩
    | some out =>
      by_cases hm : h.magic = ML_SINGLE_MAGIC
      · rcases invoke_request_outcome h in_data out p hm with
          ⟨hreq, _⟩ | ⟨hreq, _⟩ | ⟨hreq, _⟩
        · exact Or.inl ⟨_, p.store (some out) none, rfl, hreq⟩
        · exact Or.inl ⟨_, p.store (some out) none, rfl, hreq⟩
        · exact Or.inr ⟨hm, in_data, out, rfl, rfl, hreq⟩
      · left
        refine ⟨ML_ERROR_INVALID_PARAMETER, p, rfl, ?_⟩
        simp only [ml_single_invoke_request, check_feature_state,
          invalid_handle_locked h false hm]

/-- The end of `ml_single_invoke` after an expired wait sets `ignore_output`
and writes nothing else in the handle. -/
theorem invoke_wakeup_expired_fst (h : ml_single) (p : proc) :
    (ml_single_invoke_wakeup false h p).2.1 = { h with ignore_output := true } := by
  unfold ml_single_invoke_wakeup
  simp only [Bool.false_eq_true, if_false]
  cases p.load h.output <;> rfl

/-- The end of `ml_single_invoke` does not touch the locals of the invoke
thread and writes, in the handle, `ignore_output` at most. -/
theorem invoke_wakeup_cases (signalled : Bool) (h : ml_single) (p : proc) :
    (ml_single_invoke_wakeup signalled h p).2.2.worker = p.worker ∧
    ((ml_single_invoke_wakeup signalled h p).2.1 = h ∨
      (ml_single_invoke_wakeup signalled h p).2.1 = { h with ignore_output := true }) := by
  unfold ml_single_invoke_wakeup
  split_ifs
  · exact ⟨rfl, Or.inl rfl⟩
  · simp only
    cases hl : p.load h.output with
    | none => exact ⟨rfl, Or.inr rfl⟩
    | some d =>
      refine ⟨?_, Or.inr rfl⟩
      cases ho : h.output <;> simp [proc.store, ml_tensors_data_destroy]

/-- `ml_single_set_timeout` on a non-null handle writes the timeout at
most. -/
theorem set_timeout_cases (h : ml_single) (timeout : Nat) :
    ∃ t, (ml_single_set_timeout (some h) timeout).2 = some { h with timeout := t } := by
  unfold ml_single_set_timeout
  simp only [check_feature_state]
  by_cases hm : h.magic = ML_SINGLE_MAGIC
  · simp only [valid_handle_locked h hm]
    split_ifs
    · exact ⟨h.timeout, rfl⟩
    · exact ⟨_, rfl⟩
  · simp only [invalid_handle_locked h false hm]
    split_ifs
    · exact ⟨h.timeout, rfl⟩
    · exact ⟨h.timeout, rfl⟩

/-- One section run during a wait leaves the engine and the tensor infos of
the handle alone, and leaves no handle `RUNNING` without the live tag. -/
theorem wait_step_frame (E : collaborators) (a : wait_action) (h : ml_single) (p : proc)
    (hinv : h.magic = ML_SINGLE_MAGIC ∨ h.state ≠ RUNNING) :
    (wait_step E a (h, p)).1.filter = h.filter ∧
    (wait_step E a (h, p)).1.in_info = h.in_info ∧
    (wait_step E a (h, p)).1.out_info = h.out_info ∧
    ((wait_step E a (h, p)).1.magic = ML_SINGLE_MAGIC ∨
      (wait_step E a (h, p)).1.state ≠ RUNNING) := by
  cases a with
  | thread ev =>
    obtain ⟨st, stt, hs⟩ := invoke_thread_step_fst E ev h p
    simp only [wait_step]
    refine ⟨by rw [hs], by rw [hs], by rw [hs], ?_⟩
    rcases hinv with c | c
    · left
      rw [hs]
      exact c
    · right
      intro hr
      exact c (invoke_thread_step_running E ev h p hr)
  | invoke_request input output =>
    simp only [wait_step]
    rcases invoke_request_cases h input output p with
      ⟨st, p1, _, hreq⟩ | ⟨hm, in_data, out, _, _, hreq⟩
    · rw [hreq]
      exact ⟨rfl, rfl, rfl, hinv⟩
    · rw [hreq]
      exact ⟨rfl, rfl, rfl, Or.inl hm⟩
  | invoke_wakeup signalled =>
    simp only [wait_step]
    rcases (invoke_wakeup_cases signalled h p).2 with c | c
    · rw [c]
      exact ⟨rfl, rfl, rfl, hinv⟩
    · rw [c]
      exact ⟨rfl, rfl, rfl, hinv⟩
  | set_timeout timeout =>
    obtain ⟨t, ht⟩ := set_timeout_cases h timeout
    simp only [wait_step, ht, Option.getD_some]
    exact ⟨trivial, trivial, trivial, hinv⟩
  | close_request =>
    simp only [wait_step, ml_single_close_request, ML_SINGLE_GET_VALID_HANDLE_LOCKED]
    split_ifs with c
    · exact ⟨rfl, rfl, rfl, hinv⟩
    · refine ⟨rfl, rfl, rfl, Or.inr ?_⟩
      simp

/-- The sections run during a wait leave the engine and the tensor infos of
the handle alone, and leave no handle `RUNNING` without the live tag. -/
theorem wait_run_frame (E : collaborators) (during_wait : List wait_action) (h : ml_single)
    (p : proc) (hinv : h.magic = ML_SINGLE_MAGIC ∨ h.state ≠ RUNNING) :
    (wait_run E during_wait (h, p)).1.filter = h.filter ∧
    (wait_run E during_wait (h, p)).1.in_info = h.in_info ∧
    (wait_run E during_wait (h, p)).1.out_info = h.out_info ∧
    ((wait_run E during_wait (h, p)).1.magic = ML_SINGLE_MAGIC ∨
      (wait_run E during_wait (h, p)).1.state ≠ RUNNING) := by
  induction during_wait generalizing h p with
  | nil => exact ⟨rfl, rfl, rfl, hinv⟩
  | cons a l ih =>
    obtain ⟨a1, a2, a3, a4⟩ := wait_step_frame E a h p hinv
    obtain ⟨b1, b2, b3, b4⟩ := ih (wait_step E a (h, p)).1 (wait_step E a (h, p)).2 a4
    simp only [wait_run, List.foldl_cons] at b1 b2 b3 b4 ⊢
    exact ⟨by rw [b1, a1], by rw [b2, a2], by rw [b3, a3], b4⟩

/-- One section run during a wait keeps the stored status and the thread's
local status other than `ML_ERROR_TRY_AGAIN`, when the creation of the output
tensors-data never answers that status. -/
theorem wait_step_status (E : collaborators) (a : wait_action) (h : ml_single) (p : proc)
    (hA : ∀ info, E.data_create_status info ≠ ML_ERROR_TRY_AGAIN)
    (hS : h.status ≠ ML_ERROR_TRY_AGAIN) (hW : p.worker.status ≠ ML_ERROR_TRY_AGAIN) :
    (wait_step E a (h, p)).1.status ≠ ML_ERROR_TRY_AGAIN ∧
    (wait_step E a (h, p)).2.worker.status ≠ ML_ERROR_TRY_AGAIN := by
  cases a with
  | thread ev => exact invoke_thread_step_status E ev h p hA hS hW
  | invoke_request input output =>
    simp only [wait_step]
    rcases invoke_request_cases h input output p with
      ⟨st, p1, hw, hreq⟩ | ⟨hm, in_data, out, _, _, hreq⟩
    · rw [hreq]
      simp only [Option.getD_some]
      rw [hw]
      exact ⟨hS, hW⟩
    · rw [hreq]
      exact ⟨hS, hW⟩
  | invoke_wakeup signalled =>
    simp only [wait_step]
    obtain ⟨hw, c⟩ := invoke_wakeup_cases signalled h p
    rw [hw]
    rcases c with c | c
    · rw [c]
      exact ⟨hS, hW⟩
    · rw [c]
      exact ⟨hS, hW⟩
  | set_timeout timeout =>
    obtain ⟨t, ht⟩ := set_timeout_cases h timeout
    simp only [wait_step, ht, Option.getD_some]
    exact ⟨hS, hW⟩
  | close_request =>
    simp only [wait_step, ml_single_close_request, ML_SINGLE_GET_VALID_HANDLE_LOCKED]
    split_ifs with c
    · exact ⟨hS, hW⟩
    · exact ⟨hS, hW⟩

/-- The sections run during a wait keep the stored status other than
`ML_ERROR_TRY_AGAIN`, when the creation of the output tensors-data never
answers that status. -/
theorem wait_run_status (E : collaborators) (during_wait : List wait_action)
    (s : ml_single × proc)
    (hA : ∀ info, E.data_create_status info ≠ ML_ERROR_TRY_AGAIN)
    (hS : s.1.status ≠ ML_ERROR_TRY_AGAIN) (hW : s.2.worker.status ≠ ML_ERROR_TRY_AGAIN) :
    (wait_run E during_wait s).1.status ≠ ML_ERROR_TRY_AGAIN := by
  induction during_wait generalizing s with
  | nil => exact hS
  | cons a l ih =>
    obtain ⟨x, y⟩ := wait_step_status E a s.1 s.2 hA hS hW
    simp only [wait_run, List.foldl_cons]
    exact ih (wait_step E a s) x y

/-- With the handle `IDLE` and the thread in its idle wait, a section of the
thread changes nothing. -/
theorem invoke_thread_step_idle (E : collaborators) (ev : wait_event) (s : ml_single × proc)
    (hs : s.1.state = IDLE) (hw : s.2.worker.pc = waiting) :
    invoke_thread_step E ev s = s := by
  obtain ⟨h, p⟩ := s
  obtain ⟨slots, freed, worker⟩ := p
  obtain ⟨pc, i, o, st⟩ := worker
  simp only at hs hw
  subst hw
  cases ev <;> simp [invoke_thread_step, invoke_thread_woken, hs, thread_state.toNat]

/-- With the handle `IDLE` and the thread in its idle wait, the sections of
the thread change nothing. -/
theorem invoke_thread_run_idle (E : collaborators) (evs : List wait_event)
    (s : ml_single × proc) (hs : s.1.state = IDLE) (hw : s.2.worker.pc = waiting) :
    invoke_thread_run E evs s = s := by
  induction evs with
  | nil => rfl
  | cons ev evs ih =>
    simp only [invoke_thread_run, List.foldl_cons, invoke_thread_step_idle E ev s hs hw]
    exact ih

/-- While the thread is inside `klass->invoke` for a request in state
`RUNNING`, the only section of the thread that does anything is the return of
the engine; a run in which it occurs ends where that section ends. -/
theorem invoke_thread_run_invoking (E : collaborators) (klass : GTensorFilterSingleClass)
    (h : ml_single) (p : proc) (evs : List wait_event) (hs : h.state = RUNNING)
    (hw : p.worker.pc = invoking) (hk : E.g_type_class_peek = some klass)
    (hmem : engine_returns ∈ evs) :
    invoke_thread_run E evs (h, p) = invoke_thread_invoked E klass h p := by
  induction evs with
  | nil => simp at hmem
  | cons ev evs ih =>
    simp only [invoke_thread_run, List.foldl_cons]
    by_cases he : ev = engine_returns
    · subst he
      have hstep : invoke_thread_step E engine_returns (h, p)
          = invoke_thread_invoked E klass h p := by
        simp [invoke_thread_step, hw, hk]
      rw [hstep]
      obtain ⟨a, b⟩ := invoke_thread_invoked_settles E klass h p hs
      exact invoke_thread_run_idle E evs _ a b
    · have hstep : invoke_thread_step E ev (h, p) = (h, p) := by
        cases ev <;> simp [invoke_thread_step, hw] at he ⊢
      rw [hstep]
      have hmem2 : engine_returns ∈ evs := by
        rcases List.mem_cons.1 hmem with c | c
        · exact absurd c.symm he
        · exact c
      exact ih hmem2

/-- A request in state `RUNNING` is served by a run of the thread in which
the section that takes the request up (the start of a thread just created, or
the return of the idle wait) is followed by the return of the engine: the run
ends where the section after `klass->invoke` ends, entered with the
descriptors of the request. -/
theorem invoke_thread_run_serves (E : collaborators) (klass : GTensorFilterSingleClass)
    (h : ml_single) (p : proc) (ev0 : wait_event) (pre rest : List wait_event)
    (hs : h.state = RUNNING)
    (hw : p.worker.pc = created ∧ ev0 = thread_starts ∨
      p.worker.pc = waiting ∧ ev0 = cond_returns)
    (hk : E.g_type_class_peek = some klass) (hmem : engine_returns ∈ rest) :
    invoke_thread_run E (pre ++ ev0 :: rest) (h, p)
      = invoke_thread_invoked E klass h (invoke_thread_setup h p).2 := by
  have hstep0 : invoke_thread_step E ev0 (h, p) = (h, (invoke_thread_setup h p).2) := by
    rcases hw with ⟨a, b⟩ | ⟨a, b⟩
    · subst b
      simp [invoke_thread_step, a, invoke_thread, hk, invoke_thread_loop, hs,
        thread_state.toNat, invoke_thread_setup]
    · subst b
      simp [invoke_thread_step, a, invoke_thread_woken, hs, thread_state.toNat,
        invoke_thread_setup]
  induction pre with
  | nil =>
    simp only [List.nil_append, invoke_thread_run, List.foldl_cons, hstep0]
    exact invoke_thread_run_invoking E klass h _ rest hs rfl hk hmem
  | cons e pre ih =>
    simp only [List.cons_append, invoke_thread_run, List.foldl_cons]
    by_cases he : e = ev0
    · subst he
      rw [hstep0]
      exact invoke_thread_run_invoking E klass h _ (pre ++ e :: rest) hs rfl hk
        (List.mem_append_right _ (List.mem_cons_of_mem _ hmem))
    · have hstep : invoke_thread_step E e (h, p) = (h, p) := by
        rcases hw with ⟨a, b⟩ | ⟨a, b⟩
        · subst b
          cases e <;> simp [invoke_thread_step, a] at he ⊢
        · subst b
          cases e <;> simp [invoke_thread_step, a] at he ⊢
      rw [hstep]
      exact ih

/-- A wait that starts with the request stored, during which only the invoke
thread runs and serves the request: it ends on what the section after
`klass->invoke` leaves, entered with the descriptors of the request. -/
theorem wait_run_serves (E : collaborators) (klass : GTensorFilterSingleClass) (h : ml_single)
    (in_data : ml_tensors_data_s) (out : Nat) (p : proc) (ev0 : wait_event)
    (pre rest : List wait_event)
    (hw : p.worker.pc = created ∧ ev0 = thread_starts ∨
      p.worker.pc = waiting ∧ ev0 = cond_returns)
    (hk : E.g_type_class_peek = some klass) (hmem : engine_returns ∈ rest) :
    wait_run E ((pre ++ ev0 :: rest).map wait_action.thread)
        ({ h with input := some in_data, output := some out, state := RUNNING,
                  ignore_output := false },
         p.store (some out) none)
      = invoke_thread_invoked E klass
          { h with input := some in_data, output := some out, state := RUNNING,
                   ignore_output := false }
          { (p.store (some out) none) with
            worker := { p.worker with
              pc := invoking,
              in_tensors := setup_in_tensors { h with input := some in_data },
              out_tensors := setup_out_tensors h } } := by
  have hrun := invoke_thread_run_serves E klass
    { h with input := some in_data, output := some out, state := RUNNING, ignore_output := false }
    (p.store (some out) none) ev0 pre rest rfl (by simpa [proc.store] using hw) hk hmem
  rw [wait_run_thread, hrun]
  rfl

/-- The sample handle with a request in flight is a handle `ml_single_open`
delivered, after an accepted request. -/
theorem sample_running_opened : opened (sample_E sample_klass) sample_running :=
  opened.accepted sample_handle (some sample_input) (some 3) sample_proc sample_running
    (sample_proc.store (some 3) none)
    (opened.delivered none (some "m") (some sample_in_info) (some sample_out_info)
      ML_NNFW_TYPE_TENSORFLOW_LITE 0 sample_proc sample_handle (by decide) (by decide))
    rfl

/-- An accepted `ml_single_invoke` whose timed wait expires, when only the
invoke thread runs during the wait: `ML_ERROR_TIMED_OUT`, the caller's slot
`NULL` (a tensors-data the thread had stored there is destroyed: its buffers
are among the released ones), `ignore_output` set, and no slot written by the
section the thread runs when the engine returns later. -/
theorem invoke_timed_out_undisturbed (E : collaborators) (h : ml_single)
    (in_data : ml_tensors_data_s) (out : Nat) (p : proc) (evs : List wait_event)
    (hm : h.magic = ML_SINGLE_MAGIC) (hf : h.filter.isSome = true) (hs : h.state = IDLE)
    (hn : in_data.num_tensors = h.in_info.num_tensors)
    (hmatch : ∀ i, i < in_data.num_tensors →
      (in_data.at i).tensor ≠ none ∧
        (in_data.at i).size = ml_tensor_info_get_size (h.in_info.at i)) :
    ∃ h1 p1,
      ml_single_invoke E (some h) (some in_data) (some out) p (evs.map wait_action.thread) false
        = (ML_ERROR_TIMED_OUT, some h1, p1) ∧
      p1.slots out = none ∧
      h1.ignore_output = true ∧
      h1.output = some out ∧
      (∀ d,
        (invoke_thread_run E evs
          ({ h with input := some in_data, output := some out, state := RUNNING,
                    ignore_output := false },
           p.store (some out) none)).2.slots out = some d →
        ∀ b, b ∈ (d.tensors.filterMap fun t => t.tensor) → b ∈ p1.freed) ∧
      (∀ klass, (invoke_thread_invoked E klass h1 p1).2.slots = p1.slots) := by
  have hz := input_sizes_ok_of_matching in_data h.in_info hmatch
  have hreq := invoke_request_accepted h in_data out p hm hf hs hn hz
  obtain ⟨st, stt, hrun⟩ := invoke_thread_run_fst E evs
    { h with input := some in_data, output := some out, state := RUNNING, ignore_output := false }
    (p.store (some out) none)
  generalize hS : invoke_thread_run E evs
      ({ h with input := some in_data, output := some out, state := RUNNING,
                ignore_output := false },
       p.store (some out) none) = S at hrun ⊢
  have ho : S.1.output = some out := by rw [hrun]
  obtain ⟨w1, w2, w3, _, w5⟩ := invoke_wakeup_timed_out S.1 S.2 out ho
  refine ⟨(ml_single_invoke_wakeup false S.1 S.2).2.1, (ml_single_invoke_wakeup false S.1 S.2).2.2,
    ?_, w3, ?_, ?_, ?_, ?_⟩
  · simp only [ml_single_invoke, hreq, wait_run_thread, hS]
    rw [← w1]
  · rw [w2]
  · rw [w2]
    exact ho
  · intro d hd b hb
    rw [w5 d hd]
    exact List.mem_append_right _ hb
  · intro klass
    exact invoke_thread_invoked_slots_ignored E klass _ _ (by rw [w2])

/-! ## Claims -/

/-- C1 (as the code has it): a handle whose magic tag is not the live sentinel
is rejected by `ml_single_close`, `ml_single_invoke`,
`ml_single_get_input_info`, `ml_single_get_output_info` and
`ml_single_set_timeout` with `ML_ERROR_INVALID_PARAMETER`, and neither the
handle nor the memory around it is changed. -/
theorem stale_handle_rejected (E : collaborators) (h : ml_single) (p : proc)
    (input : Option ml_tensors_data_s) (output info : Option Nat) (timeout : Nat)
    (during_wait : List wait_action) (signalled : Bool)
    (hm : h.magic ≠ ML_SINGLE_MAGIC) :
    ml_single_close E (some h) p = (ML_ERROR_INVALID_PARAMETER, some h, p) ∧
    ml_single_invoke E (some h) input output p during_wait signalled
      = (ML_ERROR_INVALID_PARAMETER, some h, p) ∧
    ml_single_get_input_info E (some h) info = (ML_ERROR_INVALID_PARAMETER, some h, none) ∧
    ml_single_get_output_info E (some h) info = (ML_ERROR_INVALID_PARAMETER, some h, none) ∧
    ml_single_set_timeout (some h) timeout = (ML_ERROR_INVALID_PARAMETER, some h) := by
  refine ⟨?_, ?_, ?_, ?_, ?_⟩
  · simp [ml_single_close, ml_single_close_request, check_feature_state,
      invalid_handle_locked h true hm]
  · cases input <;> cases output <;>
      simp [ml_single_invoke, ml_single_invoke_request, check_feature_state,
        invalid_handle_locked h false hm]
  · cases info <;>
      simp [ml_single_get_input_info, check_feature_state, invalid_handle_locked h false hm]
  · cases info <;>
      simp [ml_single_get_output_info, check_feature_state, invalid_handle_locked h false hm]
  · by_cases ht : timeout = 0 <;>
      simp [ml_single_set_timeout, check_feature_state, invalid_handle_locked h false hm, ht]

/-- C1, at the sample handle once `ml_single_close` has succeeded on it (the
tag is then 0). -/
theorem stale_handle_rejected_witness :
    (ml_single_close (sample_E sample_klass) (some sample_handle) sample_proc).1 = ML_ERROR_NONE ∧
    sample_closed.magic = 0 ∧
    ml_single_close (sample_E sample_klass) (some sample_closed) sample_proc
      = (ML_ERROR_INVALID_PARAMETER, some sample_closed, sample_proc) ∧
    ml_single_invoke (sample_E sample_klass) (some sample_closed) (some sample_input) (some 7)
        sample_proc [] true
      = (ML_ERROR_INVALID_PARAMETER, some sample_closed, sample_proc) ∧
    ml_single_get_input_info (sample_E sample_klass) (some sample_closed) (some 0)
      = (ML_ERROR_INVALID_PARAMETER, some sample_closed, none) ∧
    ml_single_get_output_info (sample_E sample_klass) (some sample_closed) (some 0)
      = (ML_ERROR_INVALID_PARAMETER, some sample_closed, none) ∧
    ml_single_set_timeout (some sample_closed) 5
      = (ML_ERROR_INVALID_PARAMETER, some sample_closed) :=
  ⟨by decide, by decide,
    stale_handle_rejected (sample_E sample_klass) sample_closed sample_proc (some sample_input)
      (some 7) (some 0) 5 [] true (by decide)⟩

/-- C1 as stated fails: on the closed sample handle `ml_single_close` and
`ml_single_set_timeout` answer `ML_ERROR_INVALID_PARAMETER`, which is not the
kind `InvalidHandle`. -/
theorem stale_handle_not_invalid_handle :
    sample_closed.magic ≠ ML_SINGLE_MAGIC ∧
    (ml_single_close (sample_E sample_klass) (some sample_closed) sample_proc).1
      = ML_ERROR_INVALID_PARAMETER ∧
    (ml_single_close (sample_E sample_klass) (some sample_closed) sample_proc).1
      ≠ ML_ERROR_INVALID_HANDLE ∧
    (ml_single_set_timeout (some sample_closed) 5).1 ≠ ML_ERROR_INVALID_HANDLE := by
  decide

/-- C2 (as the code has it): on a valid handle (one that `ml_single_open`
delivered and that is not closed) whose state is `RUNNING`, `ml_single_invoke`
with an input that matches the input info in count and sizes and has a buffer
in every tensor returns `ML_ERROR_TRY_AGAIN` and leaves every field of the
handle as it was (input, output pointer, ignore_output, status, timeout and
state among them); the only store is `NULL` into the slot of the refused
caller. -/
theorem invoke_while_running_try_again (E : collaborators) (h : ml_single)
    (in_data : ml_tensors_data_s) (out : Nat) (p : proc) (during_wait : List wait_action)
    (signalled : Bool)
    (hv : opened E h) (hs : h.state = RUNNING)
    (hn : in_data.num_tensors = h.in_info.num_tensors)
    (hz : ∀ i, i < in_data.num_tensors →
      (in_data.at i).tensor ≠ none ∧ (in_data.at i).size = ml_tensor_info_get_size (h.in_info.at i)) :
    ml_single_invoke E (some h) (some in_data) (some out) p during_wait signalled
      = (ML_ERROR_TRY_AGAIN, some h, p.store (some out) none) := by
  obtain ⟨hm, hf⟩ := opened_valid E h hv
  have hz2 := input_sizes_ok_of_matching in_data h.in_info hz
  simp [ml_single_invoke, invoke_request_busy h in_data out p hm hf hs hn hz2]

/-- C2, at the sample handle: opened, then `RUNNING` after an accepted
request; a second call is refused and the request in flight is untouched. -/
theorem invoke_while_running_try_again_witness :
    ml_single_invoke (sample_E sample_klass) (some sample_running) (some sample_input) (some 7)
        sample_proc [.thread engine_returns] true
      = (ML_ERROR_TRY_AGAIN, some sample_running, sample_proc.store (some 7) none) :=
  invoke_while_running_try_again (sample_E sample_klass) sample_running sample_input 7
    sample_proc [.thread engine_returns] true
    sample_running_opened
    (by decide) (by decide) (by decide)

/-- C2 as stated fails: on the sample handle with a request in flight (a
handle `ml_single_open` delivered, state `RUNNING`), an input with the count
and the sizes of the input info whose first tensor has no buffer is answered
`ML_ERROR_INVALID_PARAMETER`, not `ML_ERROR_TRY_AGAIN`: the buffer test of
line 557 comes before the busy check. -/
theorem invoke_while_running_null_buffer :
    opened (sample_E sample_klass) sample_running ∧
    sample_running.state = RUNNING ∧
    sample_input_null.num_tensors = sample_running.in_info.num_tensors ∧
    (∀ i, i < sample_input_null.num_tensors →
      (sample_input_null.at i).size = ml_tensor_info_get_size (sample_running.in_info.at i)) ∧
    (ml_single_invoke (sample_E sample_klass) (some sample_running) (some sample_input_null)
        (some 7) sample_proc [] true).1 = ML_ERROR_INVALID_PARAMETER ∧
    (ml_single_invoke (sample_E sample_klass) (some sample_running) (some sample_input_null)
        (some 7) sample_proc [] true).1 ≠ ML_ERROR_TRY_AGAIN :=
  ⟨sample_running_opened, by decide, by decide, by decide, by decide, by decide⟩

/-- C3, at the interleaving `sample_overtaken`: the call was accepted (valid
handle, `IDLE`, matching input), the thread stored the output in the caller's
slot 7 during the wait, a second caller's request (slot 8) was accepted, and
then the first caller's wait returned `FALSE`. The call returns
`ML_ERROR_TIMED_OUT` with its own slot 7 still holding the tensors-data
(buffer 100, nothing released): the test and the store of lines 588-591 go
through `single_h->output`, which points to the second caller's slot by then,
and `ignore_output` is set on the second caller's request. -/
theorem timed_out_overtaken_slot_filled :
    sample_handle.magic = ML_SINGLE_MAGIC ∧ sample_handle.filter.isSome = true ∧
    sample_handle.state = IDLE ∧
    sample_input.num_tensors = sample_handle.in_info.num_tensors ∧
    input_sizes_ok sample_input sample_handle.in_info = true ∧
    sample_overtaken.1 = ML_ERROR_TIMED_OUT ∧
    sample_overtaken.2.2.slots 7 = some ⟨1, [⟨some 100, 16⟩]⟩ ∧
    sample_overtaken.2.2.slots 7 ≠ none ∧
    sample_overtaken.2.2.freed = [] ∧
    (sample_overtaken.2.1.map fun h => (h.output, h.ignore_output, h.state))
      = some (some 8, true, RUNNING) := by
  decide

/-- C4: after an accepted `ml_single_invoke` has returned `ML_ERROR_TIMED_OUT`
with the handle still `RUNNING` (`ignore_output` is then set), whatever ran
under the handle mutex during its wait, the section the invoke thread runs
when the engine call returns, whatever the engine answers, leaves the handle
`IDLE` and writes no output slot (the slot the handle points to stays `NULL`,
and so does the abandoned caller's slot when only the invoke thread ran during
the wait); in the state that results, a following `ml_single_invoke` with a
matching input passes the busy check: it does not return at all before its
wait (so not with `ML_ERROR_TRY_AGAIN`), it stores the new request, resets
`ignore_output` to false and sets the state to `RUNNING`. -/
theorem timed_out_request_frees_handle (E : collaborators) (klass : GTensorFilterSingleClass)
    (h : ml_single) (in_data : ml_tensors_data_s) (out : Nat) (p : proc)
    (during_wait : List wait_action) (h1 : ml_single) (p1 : proc)
    (in_data2 : ml_tensors_data_s) (out2 : Nat)
    (hm : h.magic = ML_SINGLE_MAGIC) (hf : h.filter.isSome = true) (hs : h.state = IDLE)
    (hn : in_data.num_tensors = h.in_info.num_tensors)
    (hmatch : ∀ i, i < in_data.num_tensors →
      (in_data.at i).tensor ≠ none ∧
        (in_data.at i).size = ml_tensor_info_get_size (h.in_info.at i))
    (hr : ml_single_invoke E (some h) (some in_data) (some out) p during_wait false
      = (ML_ERROR_TIMED_OUT, some h1, p1))
    (hrun : h1.state = RUNNING)
    (hn2 : in_data2.num_tensors = h.in_info.num_tensors)
    (hmatch2 : ∀ i, i < in_data2.num_tensors →
      (in_data2.at i).tensor ≠ none ∧
        (in_data2.at i).size = ml_tensor_info_get_size (h.in_info.at i)) :
    h1.ignore_output = true ∧
    (invoke_thread_invoked E klass h1 p1).1.state = IDLE ∧
    (invoke_thread_invoked E klass h1 p1).2.slots = p1.slots ∧
    (∀ o, h1.output = some o → (invoke_thread_invoked E klass h1 p1).2.slots o = none) ∧
    ((∀ a, a ∈ during_wait → ∃ ev, a = wait_action.thread ev) →
      (invoke_thread_invoked E klass h1 p1).2.slots out = none) ∧
    ml_single_invoke_request (some (invoke_thread_invoked E klass h1 p1).1) (some in_data2)
        (some out2) (invoke_thread_invoked E klass h1 p1).2
      = .inr ({ (invoke_thread_invoked E klass h1 p1).1 with
                input := some in_data2, output := some out2, state := RUNNING,
                ignore_output := false },
              (invoke_thread_invoked E klass h1 p1).2.store (some out2) none) := by
  have hz := input_sizes_ok_of_matching in_data h.in_info hmatch
  have hz2 := input_sizes_ok_of_matching in_data2 h.in_info hmatch2
  have hreq := invoke_request_accepted h in_data out p hm hf hs hn hz
  obtain ⟨f1, f2, _, f4⟩ := wait_run_frame E during_wait
    { h with input := some in_data, output := some out, state := RUNNING, ignore_output := false }
    (p.store (some out) none) (Or.inl hm)
  simp only [ml_single_invoke, hreq, Prod.mk.injEq, Option.some.injEq] at hr
  obtain ⟨_, hr2, hr3⟩ := hr
  have hfst : ∀ evs : List wait_event, during_wait = evs.map wait_action.thread →
      (wait_run E during_wait
        ({ h with input := some in_data, output := some out, state := RUNNING,
                  ignore_output := false },
         p.store (some out) none)).1.output = some out := by
    intro evs hevs
    obtain ⟨s, stt, hrun2⟩ := invoke_thread_run_fst E evs
      { h with input := some in_data, output := some out, state := RUNNING,
               ignore_output := false }
      (p.store (some out) none)
    rw [hevs, wait_run_thread, hrun2]
  generalize wait_run E during_wait
      ({ h with input := some in_data, output := some out, state := RUNNING,
                ignore_output := false },
       p.store (some out) none) = S at f1 f2 f4 hr2 hr3 hfst
  have hh1 : h1 = { S.1 with ignore_output := true } := by
    rw [← hr2, invoke_wakeup_expired_fst]
  have hi : h1.ignore_output = true := by rw [hh1]
  have hSrun : S.1.state = RUNNING := by
    rw [hh1] at hrun
    exact hrun
  have hSm : S.1.magic = ML_SINGLE_MAGIC := by
    rcases f4 with c | c
    · exact c
    · exact absurd hSrun c
  have hslot : ∀ o, h1.output = some o → p1.slots o = none := by
    intro o ho
    have ho2 : S.1.output = some o := by
      rw [hh1] at ho
      exact ho
    rw [← hr3]
    exact (invoke_wakeup_timed_out S.1 S.2 o ho2).2.2.1
  obtain ⟨k1, _, stt2, k3⟩ := invoke_thread_invoked_ignored E klass h1 p1 hi hrun
  refine ⟨hi, ?_, k1, ?_, ?_, ?_⟩
  · rw [k3]
  · intro o ho
    rw [k1]
    exact hslot o ho
  · intro hl
    obtain ⟨evs, hevs⟩ := thread_only_map during_wait hl
    rw [k1]
    apply hslot
    rw [hh1]
    exact hfst evs hevs
  · apply invoke_request_accepted
    · rw [k3, hh1]
      exact hSm
    · rw [k3, hh1]
      simp only
      rw [f1]
      exact hf
    · rw [k3]
    · rw [k3, hh1]
      simp only
      rw [f2]
      exact hn2
    · rw [k3, hh1]
      simp only
      rw [f2]
      exact hz2

/-- C4, at the sample handle: the first call times out while the engine is
still running; the engine then returns, and a second call is accepted. -/
theorem timed_out_request_frees_handle_witness :
    sample_timed_out_handle.ignore_output = true ∧
    (invoke_thread_invoked (sample_E sample_klass) sample_klass sample_timed_out_handle
      sample_timed_out.2.2).1.state = IDLE ∧
    (invoke_thread_invoked (sample_E sample_klass) sample_klass sample_timed_out_handle
      sample_timed_out.2.2).2.slots = sample_timed_out.2.2.slots ∧
    (∀ o, sample_timed_out_handle.output = some o →
      (invoke_thread_invoked (sample_E sample_klass) sample_klass sample_timed_out_handle
        sample_timed_out.2.2).2.slots o = none) ∧
    ((∀ a, a ∈ [wait_action.thread cond_returns] → ∃ ev, a = wait_action.thread ev) →
      (invoke_thread_invoked (sample_E sample_klass) sample_klass sample_timed_out_handle
        sample_timed_out.2.2).2.slots 7 = none) ∧
    ml_single_invoke_request
        (some (invoke_thread_invoked (sample_E sample_klass) sample_klass
          sample_timed_out_handle sample_timed_out.2.2).1)
        (some sample_input) (some 8)
        (invoke_thread_invoked (sample_E sample_klass) sample_klass sample_timed_out_handle
          sample_timed_out.2.2).2
      = .inr ({ (invoke_thread_invoked (sample_E sample_klass) sample_klass
                  sample_timed_out_handle sample_timed_out.2.2).1 with
                input := some sample_input, output := some 8, state := RUNNING,
                ignore_output := false },
              (invoke_thread_invoked (sample_E sample_klass) sample_klass sample_timed_out_handle
                sample_timed_out.2.2).2.store (some 8) none) :=
  timed_out_request_frees_handle (sample_E sample_klass) sample_klass sample_handle sample_input
    7 sample_proc [.thread cond_returns] sample_timed_out_handle sample_timed_out.2.2
    sample_input 8
    (by decide) (by decide) (by decide) (by decide) (by decide) rfl (by decide) (by decide)
    (by decide)

/-- C5 (as the code has it): on a valid handle with a live engine in state
`IDLE` whose invoke thread is either just created or in its idle wait,
`ml_single_invoke` with an input that matches the input info in count and
sizes and has a buffer in every tensor, when nothing but the invoke thread
takes the handle mutex during the wait, the thread serves the request (it
takes the request up, by its start `thread_starts` or by the return
`cond_returns` of its idle wait, and later the engine returns, whatever other
sections of the thread the schedule lists before, between and after; the
engine succeeds with buffers `bufs`; the output tensors-data can be created)
and the wait is signalled, returns `ML_ERROR_NONE`, leaves the handle `IDLE`
and fills the output slot with a tensors-data whose count and per-tensor
sizes are those of the output info, slot `i` holding the buffer the engine
produced for index `i`. -/
theorem invoke_served (E : collaborators) (klass : GTensorFilterSingleClass) (h : ml_single)
    (in_data : ml_tensors_data_s) (out : Nat) (p : proc) (bufs : List (Option Nat))
    (ev0 : wait_event) (pre rest : List wait_event)
    (hm : h.magic = ML_SINGLE_MAGIC) (hf : h.filter.isSome = true) (hs : h.state = IDLE)
    (hn : in_data.num_tensors = h.in_info.num_tensors)
    (hmatch : ∀ i, i < in_data.num_tensors →
      (in_data.at i).tensor ≠ none ∧
        (in_data.at i).size = ml_tensor_info_get_size (h.in_info.at i))
    (hw : p.worker.pc = created ∧ ev0 = thread_starts ∨
      p.worker.pc = waiting ∧ ev0 = cond_returns)
    (hserved : engine_returns ∈ rest)
    (hk : E.g_type_class_peek = some klass)
    (he : klass.invoke h.filter (setup_in_tensors { h with input := some in_data })
      (setup_out_tensors h) = some bufs)
    (hc : E.data_create_status h.out_info = ML_ERROR_NONE) :
    ∃ h1 p1 d,
      ml_single_invoke E (some h) (some in_data) (some out) p
          ((pre ++ ev0 :: rest).map wait_action.thread) true
        = (ML_ERROR_NONE, some h1, p1) ∧
      h1.state = IDLE ∧
      p1.slots out = some d ∧
      d.num_tensors = h.out_info.num_tensors ∧
      ∀ i, i < h.out_info.num_tensors →
        (d.at i).size = ml_tensor_info_get_size (h.out_info.at i) ∧
        (d.at i).tensor = bufs.getD i none := by
  have hz := input_sizes_ok_of_matching in_data h.in_info hmatch
  have hreq := invoke_request_accepted h in_data out p hm hf hs hn hz
  have hrun := wait_run_serves E klass h in_data out p ev0 pre rest hw hk hserved
  obtain ⟨d1, d2, _, _, _⟩ := invoke_thread_invoked_delivers E klass
    { h with input := some in_data, output := some out, state := RUNNING, ignore_output := false }
    { (p.store (some out) none) with
      worker := { p.worker with
        pc := invoking,
        in_tensors := setup_in_tensors { h with input := some in_data },
        out_tensors := setup_out_tensors h } }
    out bufs rfl rfl rfl (by simp [setup_out_tensors]) he hc
  refine ⟨{ h with input := some in_data, output := some out, state := IDLE,
                   ignore_output := false, status := ML_ERROR_NONE },
    (invoke_thread_invoked E klass
      { h with input := some in_data, output := some out, state := RUNNING,
               ignore_output := false }
      { (p.store (some out) none) with
        worker := { p.worker with
          pc := invoking,
          in_tensors := setup_in_tensors { h with input := some in_data },
          out_tensors := setup_out_tensors h } }).2,
    ⟨h.out_info.num_tensors,
      (List.range h.out_info.num_tensors).map fun i =>
        ⟨bufs.getD i none, ml_tensor_info_get_size (h.out_info.at i)⟩⟩,
    ?_, rfl, d2, rfl, ?_⟩
  · simp only [ml_single_invoke, hreq, hrun, ml_single_invoke_wakeup, if_true]
    rw [d1]
  · intro i hi
    simp only [ml_tensors_data_s.at]
    rw [getD_map_range _ _ _ _ hi]
    exact ⟨rfl, rfl⟩

/-- C5, at the scenario of the spec, on the memory `ml_single_open` leaves
(the invoke thread created and not yet running): two inputs of 36 bytes, and
an output of one tensor of 16 bytes holding the engine's buffer 100. -/
theorem invoke_served_witness :
    ∃ h1 p1 d,
      ml_single_invoke (sample_E sample_klass) (some sample_handle) (some sample_input) (some 7)
          sample_opened.2.2
          [.thread thread_starts, .thread engine_returns] true
        = (ML_ERROR_NONE, some h1, p1) ∧
      h1.state = IDLE ∧
      p1.slots 7 = some d ∧
      d.num_tensors = sample_handle.out_info.num_tensors ∧
      ∀ i, i < sample_handle.out_info.num_tensors →
        (d.at i).size = ml_tensor_info_get_size (sample_handle.out_info.at i) ∧
        (d.at i).tensor = [some 100].getD i none :=
  invoke_served (sample_E sample_klass) sample_klass sample_handle sample_input 7
    sample_opened.2.2 [some 100] thread_starts [] [engine_returns]
    (by decide) (by decide) (by decide) (by decide) (by decide) (Or.inl ⟨by decide, rfl⟩)
    (by decide) rfl rfl rfl

/-- C5 as stated fails, on the sample handle (valid, `IDLE`) with an input of
the right count and sizes: with an engine whose `invoke` reports failure the
call returns `ML_ERROR_INVALID_PARAMETER` and the output slot stays `NULL`;
when the wait expires while the engine runs the call returns
`ML_ERROR_TIMED_OUT`; an input whose first tensor has no buffer is refused
with `ML_ERROR_INVALID_PARAMETER`; without engine the call is refused, too;
and when the waiter holds the mutex again only after a second request has been
accepted and has failed, the call returns that request's
`ML_ERROR_INVALID_PARAMETER` although its own output is in its slot. -/
theorem invoke_engine_failure_not_none :
    sample_handle.magic = ML_SINGLE_MAGIC ∧ sample_handle.state = IDLE ∧
    sample_input.num_tensors = sample_handle.in_info.num_tensors ∧
    input_sizes_ok sample_input sample_handle.in_info = true ∧
    (ml_single_invoke (sample_E sample_klass_failing) (some sample_handle) (some sample_input)
        (some 7) sample_proc [.thread cond_returns, .thread engine_returns] true).1
      = ML_ERROR_INVALID_PARAMETER ∧
    (ml_single_invoke (sample_E sample_klass_failing) (some sample_handle) (some sample_input)
        (some 7) sample_proc [.thread cond_returns, .thread engine_returns] true).1
      ≠ ML_ERROR_NONE ∧
    (ml_single_invoke (sample_E sample_klass_failing) (some sample_handle) (some sample_input)
        (some 7) sample_proc [.thread cond_returns, .thread engine_returns] true).2.2.slots 7
      = none ∧
    sample_timed_out.1 = ML_ERROR_TIMED_OUT ∧
    sample_timed_out.2.2.slots 7 = none ∧
    sample_input_null.num_tensors = sample_handle.in_info.num_tensors ∧
    (∀ i, i < sample_input_null.num_tensors →
      (sample_input_null.at i).size = ml_tensor_info_get_size (sample_handle.in_info.at i)) ∧
    (ml_single_invoke (sample_E sample_klass) (some sample_handle) (some sample_input_null)
        (some 7) sample_proc [.thread cond_returns, .thread engine_returns] true).1
      = ML_ERROR_INVALID_PARAMETER ∧
    (ml_single_invoke (sample_E sample_klass) (some { sample_handle with filter := none })
        (some sample_input) (some 7) sample_proc [.thread cond_returns, .thread engine_returns]
        true).1 = ML_ERROR_INVALID_PARAMETER ∧
    sample_overwritten_failure.1 = ML_ERROR_INVALID_PARAMETER ∧
    sample_overwritten_failure.2.2.slots 7 = some ⟨1, [⟨some 100, 16⟩]⟩ := by
  decide

/-- C6: on a valid handle, an input whose tensor count differs from the count
of the input info, or one of whose tensors has no buffer or a byte size other
than the one declared for its index, makes `ml_single_invoke` return
`ML_ERROR_INVALID_PARAMETER`; the caller's output slot is `NULL` on return and
no field of the handle changes (state, input, output and ignore_output among
them). It holds whether or not the engine is live. -/
theorem invoke_mismatched_input_rejected (E : collaborators) (h : ml_single)
    (in_data : ml_tensors_data_s) (out : Nat) (p : proc) (during_wait : List wait_action)
    (signalled : Bool) (hm : h.magic = ML_SINGLE_MAGIC)
    (hbad : in_data.num_tensors ≠ h.in_info.num_tensors ∨
      ∃ i, i < in_data.num_tensors ∧
        ((in_data.at i).tensor = none ∨
          (in_data.at i).size ≠ ml_tensor_info_get_size (h.in_info.at i))) :
    ml_single_invoke E (some h) (some in_data) (some out) p during_wait signalled
      = (ML_ERROR_INVALID_PARAMETER, some h, p.store (some out) none) ∧
    (ml_single_invoke E (some h) (some in_data) (some out) p during_wait signalled).2.2.slots out
      = none := by
  have hreq : ml_single_invoke_request (some h) (some in_data) (some out) p
      = .inl (ML_ERROR_INVALID_PARAMETER, some h, p.store (some out) none) := by
    simp only [ml_single_invoke_request, check_feature_state, valid_handle_locked h hm]
    split_ifs with h1 h2 h3 h4
    · rfl
    · rfl
    · rfl
    · rcases hbad with hb | hb
      · exact absurd hb h2
      · exact absurd ((input_sizes_ok_eq_false_iff in_data h.in_info).2 hb) h3
    · rcases hbad with hb | hb
      · exact absurd hb h2
      · exact absurd ((input_sizes_ok_eq_false_iff in_data h.in_info).2 hb) h3
  have hall : ml_single_invoke E (some h) (some in_data) (some out) p during_wait signalled
      = (ML_ERROR_INVALID_PARAMETER, some h, p.store (some out) none) := by
    simp [ml_single_invoke, hreq]
  refine ⟨hall, ?_⟩
  rw [hall]
  simp [proc.store]

/-- C6, at the scenario of the spec: an input of three tensors against the
sample handle, which is configured for two. -/
theorem invoke_mismatched_input_rejected_witness :
    ml_single_invoke (sample_E sample_klass) (some sample_handle) (some sample_input3) (some 7)
        sample_proc [] true
      = (ML_ERROR_INVALID_PARAMETER, some sample_handle, sample_proc.store (some 7) none) ∧
    (ml_single_invoke (sample_E sample_klass) (some sample_handle) (some sample_input3) (some 7)
        sample_proc [] true).2.2.slots 7 = none :=
  invoke_mismatched_input_rejected (sample_E sample_klass) sample_handle sample_input3 7
    sample_proc [] true (by decide) (Or.inl (by decide))

/-- C7: `ml_single_set_timeout` with the value 0 returns
`ML_ERROR_INVALID_PARAMETER` and leaves the handle, its timeout included, as it
was, whatever the handle; with a non-zero value (an `unsigned int`) on a valid
handle it returns `ML_ERROR_NONE`, stores exactly that value as the timeout
and changes no other field. -/
theorem set_timeout_zero_rejected_nonzero_stored (single : Option ml_single) (h : ml_single)
    (timeout : Nat) (hm : h.magic = ML_SINGLE_MAGIC) (h0 : timeout ≠ 0)
    (h32 : timeout < 2 ^ 32) :
    ml_single_set_timeout single 0 = (ML_ERROR_INVALID_PARAMETER, single) ∧
    ml_single_set_timeout (some h) timeout
      = (ML_ERROR_NONE, some { h with timeout := timeout }) := by
  constructor
  · cases single <;> simp [ml_single_set_timeout, check_feature_state]
  · have hmod : timeout % 2 ^ 32 = timeout := Nat.mod_eq_of_lt h32
    simp only [ml_single_set_timeout, check_feature_state, valid_handle_locked h hm, if_neg h0,
      hmod]

/-- C7, at the sample handle: 0 is refused and the timeout stays 3000; 5 is
stored. -/
theorem set_timeout_zero_rejected_nonzero_stored_witness :
    ml_single_set_timeout (some sample_handle) 0
      = (ML_ERROR_INVALID_PARAMETER, some sample_handle) ∧
    ml_single_set_timeout (some sample_handle) 5
      = (ML_ERROR_NONE, some { sample_handle with timeout := 5 }) :=
  set_timeout_zero_rejected_nonzero_stored (some sample_handle) sample_handle 5 (by decide)
    (by decide) (by decide)

/-- C8: for every call of `ml_single_open` with a non-null handle slot, the
slot holds a handle on return exactly when the call returns `ML_ERROR_NONE`;
whenever the status is another one the slot is `NULL`; a handle left in the
slot has the live magic tag, state `IDLE`, `ignore_output` clear and timeout
3000 (and an engine and a thread). A successful call has passed every check:
no given tensors-info is invalid, the framework is determined and available,
the engine object, its class and the thread exist, the framework setup and
the engine start succeeded, and for TensorFlow both tensors-info are given. -/
theorem open_slot_filled_iff_success (E : collaborators) (slot : Option ml_single)
    (model : Option String) (input_info output_info : Option ml_tensors_info_s)
    (nnfw : ml_nnfw_type_e) (hw : Nat) (p : proc) :
    ((∃ h, (ml_single_open E (some slot) model input_info output_info nnfw hw p).2.1
        = some (some h)) ↔
      (ml_single_open E (some slot) model input_info output_info nnfw hw p).1 = ML_ERROR_NONE) ∧
    ((ml_single_open E (some slot) model input_info output_info nnfw hw p).1 ≠ ML_ERROR_NONE →
      (ml_single_open E (some slot) model input_info output_info nnfw hw p).2.1 = some none) ∧
    (∀ h, (ml_single_open E (some slot) model input_info output_info nnfw hw p).2.1
        = some (some h) →
      h.magic = ML_SINGLE_MAGIC ∧ h.state = IDLE ∧ h.ignore_output = false ∧
      h.timeout = 3000 ∧ h.filter.isSome = true ∧ h.thread.isSome = true) ∧
    ((ml_single_open E (some slot) model input_info output_info nnfw hw p).1 = ML_ERROR_NONE →
      given_and_invalid E input_info = false ∧ given_and_invalid E output_info = false ∧
      (E.ml_validate_model_file model nnfw).1 = ML_ERROR_NONE ∧
      E.ml_check_nnfw_availability (E.ml_validate_model_file model nnfw).2 hw
        = (ML_ERROR_NONE, true) ∧
      E.g_thread_try_new.isSome = true ∧
      (∃ f klass, E.g_object_new = some f ∧ E.g_type_class_peek = some klass ∧
        (klass.start (ml_single_open_framework E f model input_info output_info
          (E.ml_validate_model_file model nnfw).2).2).1 = true) ∧
      ((E.ml_validate_model_file model nnfw).2 = ML_NNFW_TYPE_TENSORFLOW →
        input_info.isSome = true ∧ output_info.isSome = true)) := by
  rcases ml_single_open_cases E slot model input_info output_info nnfw hw p with
    ⟨e1, e2⟩ | ⟨s1, ⟨h, s2, s3, s4, s5, s6, s7, s8⟩, t1, t2, t3, t4, t5, t6, t7⟩
  · refine ⟨?_, fun _ => e2, ?_, ?_⟩
    · constructor
      · rintro ⟨h, hh⟩
        rw [e2] at hh
        simp at hh
      · intro hc
        exact absurd hc e1
    · intro h hh
      rw [e2] at hh
      simp at hh
    · intro hc
      exact absurd hc e1
  · refine ⟨?_, fun hc => absurd s1 hc, ?_, fun _ => ⟨t1, t2, t3, t4, t5, t6, t7⟩⟩
    · exact ⟨fun _ => s1, fun _ => ⟨h, s2⟩⟩
    · intro h2 hh
      rw [s2] at hh
      simp only [Option.some.injEq] at hh
      subst hh
      exact ⟨s3, s4, s5, s6, s7, s8⟩

/-- C8, at the sample collaborators: opening with the TensorFlow-Lite kind
succeeds and fills the slot; opening with a kind the switch does not know
fails with `ML_ERROR_NOT_SUPPORTED` and leaves the slot `NULL`. -/
theorem open_slot_filled_iff_success_witness :
    (ml_single_open (sample_E sample_klass) (some none) (some "m") (some sample_in_info)
        (some sample_out_info) ML_NNFW_TYPE_TENSORFLOW_LITE 0 sample_proc).1 = ML_ERROR_NONE ∧
    (ml_single_open (sample_E sample_klass) (some none) (some "m") (some sample_in_info)
        (some sample_out_info) ML_NNFW_TYPE_TENSORFLOW_LITE 0 sample_proc).2.1
      = some (some sample_handle) ∧
    (ml_single_open (sample_E sample_klass) (some none) (some "m") (some sample_in_info)
        (some sample_out_info) ML_NNFW_TYPE_NNFW 0 sample_proc).1 = ML_ERROR_NOT_SUPPORTED ∧
    (ml_single_open (sample_E sample_klass) (some none) (some "m") (some sample_in_info)
        (some sample_out_info) ML_NNFW_TYPE_NNFW 0 sample_proc).2.1 = some none :=
  ⟨by decide, by decide, by decide,
    (open_slot_filled_iff_success (sample_E sample_klass) none (some "m") (some sample_in_info)
      (some sample_out_info) ML_NNFW_TYPE_NNFW 0 sample_proc).2.1 (by decide)⟩

/-- C9: the label `wait_for_next` stores the local status of the thread in the
handle and moves the state to `IDLE` only from `RUNNING`: from
`JOIN_REQUESTED` the state after the step is still `JOIN_REQUESTED`, from
`RUNNING` it is `IDLE`, and in general it is `IDLE` if it was `RUNNING` and
unchanged otherwise; no other field of the handle and no memory around it
changes. -/
theorem wait_for_next_state (h : ml_single) (p : proc) :
    wait_for_next h p
      = ({ h with status := p.worker.status,
                  state := if h.state = RUNNING then IDLE else h.state }, p) ∧
    (wait_for_next { h with state := JOIN_REQUESTED } p).1.state = JOIN_REQUESTED ∧
    (wait_for_next { h with state := RUNNING } p).1.state = IDLE ∧
    (wait_for_next h p).1.status = p.worker.status := by
  refine ⟨?_, ?_, ?_, ?_⟩
  · unfold wait_for_next
    by_cases hs : h.state = RUNNING <;> simp [hs]
  · simp [wait_for_next]
  · simp [wait_for_next]
  · unfold wait_for_next
    by_cases hs : h.state = RUNNING <;> simp [hs]

/-- C10 (as the code has it): when the invoke thread finds `JOIN_REQUESTED`
on return from its idle condition wait, it leaves for `exit` at once: no
output tensors-data is created, no slot is written, no buffer released, no
status stored; only the state is set to `IDLE` by the `exit` label. When the
engine call returns, the state is not tested before the result is handled:
with `JOIN_REQUESTED` the label `wait_for_next` leaves the state
`JOIN_REQUESTED`, and the thread leaves the loop at the loop condition that
follows. -/
theorem join_requested_thread_exits (E : collaborators) (klass : GTensorFilterSingleClass)
    (h : ml_single) (p p2 : proc) (hs : h.state = JOIN_REQUESTED) :
    invoke_thread_woken h p
      = ({ h with state := IDLE }, { p with worker := { p.worker with pc := exited } }) ∧
    (wait_for_next (invoke_thread_result E klass h p2).1
      (invoke_thread_result E klass h p2).2).1.state = JOIN_REQUESTED ∧
    (invoke_thread_invoked E klass h p2).2.worker.pc = exited := by
  have hfst := invoke_thread_result_fst E klass h p2
  refine ⟨?_, ?_, ?_⟩
  · simp [invoke_thread_woken, invoke_thread_exit, hs, thread_state.toNat]
  · simp [wait_for_next, hfst, hs]
  · simp [invoke_thread_invoked, wait_for_next, hfst, hs, invoke_thread_loop, invoke_thread_exit,
      thread_state.toNat]

/-- C10, at the sample handle once a close has requested the join. -/
theorem join_requested_thread_exits_witness :
    invoke_thread_woken sample_join_requested sample_proc
      = ({ sample_join_requested with state := IDLE },
         { sample_proc with worker := { sample_proc.worker with pc := exited } }) ∧
    (wait_for_next
      (invoke_thread_result (sample_E sample_klass) sample_klass sample_join_requested
        sample_proc_invoking).1
      (invoke_thread_result (sample_E sample_klass) sample_klass sample_join_requested
        sample_proc_invoking).2).1.state = JOIN_REQUESTED ∧
    (invoke_thread_invoked (sample_E sample_klass) sample_klass sample_join_requested
      sample_proc_invoking).2.worker.pc = exited :=
  join_requested_thread_exits (sample_E sample_klass) sample_klass sample_join_requested
    sample_proc sample_proc_invoking (by decide)

/-- C10 as stated fails after the engine call: with the state
`JOIN_REQUESTED` when `klass->invoke` returns, the thread still creates the
output tensors-data, writes it to the caller's slot 7 and stores its status
(`ML_ERROR_NONE` over the older `ML_ERROR_UNKNOWN`), and only then exits. -/
theorem join_requested_result_still_handled :
    sample_join_requested.state = JOIN_REQUESTED ∧
    sample_proc_invoking.slots 7 = none ∧
    (invoke_thread_invoked (sample_E sample_klass) sample_klass sample_join_requested
      sample_proc_invoking).2.slots 7 = some ⟨1, [⟨some 100, 16⟩]⟩ ∧
    sample_join_requested.status = ML_ERROR_UNKNOWN ∧
    (invoke_thread_invoked (sample_E sample_klass) sample_klass sample_join_requested
      sample_proc_invoking).1.status = ML_ERROR_NONE ∧
    (invoke_thread_invoked (sample_E sample_klass) sample_klass sample_join_requested
      sample_proc_invoking).2.worker.pc = exited := by
  decide

/-- C11 (as the code has it): when the engine's `invoke` reports failure for a
request in state `RUNNING`, the invoke thread records
`ML_ERROR_INVALID_PARAMETER` in the handle, materializes no output (no slot is
written and no buffer released, whatever `ignore_output` holds, so a `NULL`
slot stays `NULL`) and takes the state from `RUNNING` back to `IDLE`; the
`ml_single_invoke` that waits for it (valid handle, live engine, `IDLE`,
matching input with a buffer in every tensor, the thread just created or in
its idle wait), when nothing but the invoke thread takes the handle mutex
during its wait, the thread serves the request and the wait is signalled,
returns `ML_ERROR_INVALID_PARAMETER` with its output slot `NULL`. -/
theorem engine_failure_reported (E : collaborators) (klass : GTensorFilterSingleClass)
    (h2 : ml_single) (p2 : proc) (h : ml_single) (in_data : ml_tensors_data_s) (out : Nat)
    (p : proc) (ev0 : wait_event) (pre rest : List wait_event)
    (hs2 : h2.state = RUNNING)
    (he2 : klass.invoke h2.filter p2.worker.in_tensors p2.worker.out_tensors = none)
    (hm : h.magic = ML_SINGLE_MAGIC) (hf : h.filter.isSome = true) (hs : h.state = IDLE)
    (hn : in_data.num_tensors = h.in_info.num_tensors)
    (hmatch : ∀ i, i < in_data.num_tensors →
      (in_data.at i).tensor ≠ none ∧
        (in_data.at i).size = ml_tensor_info_get_size (h.in_info.at i))
    (hw : p.worker.pc = created ∧ ev0 = thread_starts ∨
      p.worker.pc = waiting ∧ ev0 = cond_returns)
    (hserved : engine_returns ∈ rest)
    (hk : E.g_type_class_peek = some klass)
    (he : klass.invoke h.filter (setup_in_tensors { h with input := some in_data })
      (setup_out_tensors h) = none) :
    (invoke_thread_invoked E klass h2 p2).1
      = { h2 with state := IDLE, status := ML_ERROR_INVALID_PARAMETER } ∧
    (invoke_thread_invoked E klass h2 p2).2.slots = p2.slots ∧
    (invoke_thread_invoked E klass h2 p2).2.freed = p2.freed ∧
    ∃ p1,
      ml_single_invoke E (some h) (some in_data) (some out) p
          ((pre ++ ev0 :: rest).map wait_action.thread) true
        = (ML_ERROR_INVALID_PARAMETER,
           some { h with input := some in_data, output := some out, state := IDLE,
                         ignore_output := false, status := ML_ERROR_INVALID_PARAMETER },
           p1) ∧
      p1.slots out = none := by
  have hz := input_sizes_ok_of_matching in_data h.in_info hmatch
  have hreq := invoke_request_accepted h in_data out p hm hf hs hn hz
  have hstep := invoke_thread_invoked_engine_failure E klass h2 p2 hs2 he2
  have hrun := wait_run_serves E klass h in_data out p ev0 pre rest hw hk hserved
  have hserved2 := invoke_thread_invoked_engine_failure E klass
    { h with input := some in_data, output := some out, state := RUNNING, ignore_output := false }
    { (p.store (some out) none) with
      worker := { p.worker with
        pc := invoking,
        in_tensors := setup_in_tensors { h with input := some in_data },
        out_tensors := setup_out_tensors h } }
    rfl he
  refine ⟨?_, ?_, ?_, ?_⟩
  · rw [hstep]
  · rw [hstep]
  · rw [hstep]
  · refine ⟨(invoke_thread_invoked E klass
        { h with input := some in_data, output := some out, state := RUNNING,
                 ignore_output := false }
        { (p.store (some out) none) with
          worker := { p.worker with
            pc := invoking,
            in_tensors := setup_in_tensors { h with input := some in_data },
            out_tensors := setup_out_tensors h } }).2, ?_, ?_⟩
    · simp only [ml_single_invoke, hreq, hrun, ml_single_invoke_wakeup, if_true]
      rw [hserved2]
    · rw [hserved2]
      simp [proc.store]

/-- C11, at the sample handle with an engine whose `invoke` reports failure:
the thread's step on the request in flight, and the whole call on the memory
`ml_single_open` leaves. -/
theorem engine_failure_reported_witness :
    (invoke_thread_invoked (sample_E sample_klass_failing) sample_klass_failing sample_running
        sample_proc).1
      = { sample_running with state := IDLE, status := ML_ERROR_INVALID_PARAMETER } ∧
    (invoke_thread_invoked (sample_E sample_klass_failing) sample_klass_failing sample_running
        sample_proc).2.slots = sample_proc.slots ∧
    (invoke_thread_invoked (sample_E sample_klass_failing) sample_klass_failing sample_running
        sample_proc).2.freed = sample_proc.freed ∧
    ∃ p1,
      ml_single_invoke (sample_E sample_klass_failing) (some sample_handle) (some sample_input)
          (some 7) sample_opened.2.2 [.thread thread_starts, .thread engine_returns] true
        = (ML_ERROR_INVALID_PARAMETER,
           some { sample_handle with input := some sample_input, output := some 7, state := IDLE,
                                     ignore_output := false,
                                     status := ML_ERROR_INVALID_PARAMETER },
           p1) ∧
      p1.slots 7 = none :=
  engine_failure_reported (sample_E sample_klass_failing) sample_klass_failing sample_running
    sample_proc sample_handle sample_input 7 sample_opened.2.2 thread_starts [] [engine_returns]
    (by decide) rfl (by decide) (by decide) (by decide) (by decide) (by decide)
    (Or.inl ⟨by decide, rfl⟩) (by decide) rfl rfl

/-- C11 as stated fails in its last part, on the sample handle (valid,
`IDLE`, matching input): with an engine whose `invoke` reports failure, the
thread records `ML_ERROR_INVALID_PARAMETER` during the wait, but the waiter
whose wait has expired by then returns `ML_ERROR_TIMED_OUT`; and a waiter that
holds the mutex again only after a second request has been accepted and
served with success returns that request's `ML_ERROR_NONE`. -/
theorem engine_failure_not_reported :
    sample_handle.magic = ML_SINGLE_MAGIC ∧ sample_handle.state = IDLE ∧
    sample_input.num_tensors = sample_handle.in_info.num_tensors ∧
    input_sizes_ok sample_input sample_handle.in_info = true ∧
    (wait_run (sample_E sample_klass_failing) [.thread cond_returns, .thread engine_returns]
        ({ sample_handle with input := some sample_input, output := some 7, state := RUNNING,
                              ignore_output := false },
         sample_proc.store (some 7) none)).1.status = ML_ERROR_INVALID_PARAMETER ∧
    (ml_single_invoke (sample_E sample_klass_failing) (some sample_handle) (some sample_input)
        (some 7) sample_proc [.thread cond_returns, .thread engine_returns] false).1
      = ML_ERROR_TIMED_OUT ∧
    (ml_single_invoke (sample_E sample_klass_failing) (some sample_handle) (some sample_input)
        (some 7) sample_proc [.thread cond_returns, .thread engine_returns] false).1
      ≠ ML_ERROR_INVALID_PARAMETER ∧
    sample_input2.num_tensors = sample_handle.in_info.num_tensors ∧
    input_sizes_ok sample_input2 sample_handle.in_info = true ∧
    sample_klass_picky.invoke sample_handle.filter
        (setup_in_tensors { sample_handle with input := some sample_input2 })
        (setup_out_tensors sample_handle) = none ∧
    sample_overwritten_success.1 = ML_ERROR_NONE ∧
    sample_overwritten_success.1 ≠ ML_ERROR_INVALID_PARAMETER := by
  decide

/-- C12: on a handle with the live tag, the checks of `ml_single_invoke` come
in the order engine and state, input count, buffers and sizes, busy. So the
busy check answers `ML_ERROR_TRY_AGAIN` exactly when the engine is present,
the state is `RUNNING` and the input matches the input info in count, buffers
and sizes, and the call as a whole returns `ML_ERROR_TRY_AGAIN` exactly then
(an accepted call returns `ML_ERROR_TIMED_OUT` or the stored status, which is
not `ML_ERROR_TRY_AGAIN` when neither the handle nor the thread holds that
status and the creation of the output tensors-data does not answer it); a mismatched input on a `RUNNING` handle gives
`ML_ERROR_INVALID_PARAMETER`; a handle in state `JOIN_REQUESTED` or `ERROR`,
or without engine, gives `ML_ERROR_INVALID_PARAMETER` whatever the input. -/
theorem invoke_try_again_iff (E : collaborators) (h : ml_single) (in_data : ml_tensors_data_s)
    (out : Nat) (p : proc) (during_wait : List wait_action) (signalled : Bool)
    (hm : h.magic = ML_SINGLE_MAGIC) :
    (ml_single_invoke_request (some h) (some in_data) (some out) p
        = .inl (ML_ERROR_TRY_AGAIN, some h, p.store (some out) none) ↔
      (h.filter.isSome = true ∧ h.state = RUNNING ∧
        in_data.num_tensors = h.in_info.num_tensors ∧
        ∀ i, i < in_data.num_tensors →
          (in_data.at i).tensor ≠ none ∧
            (in_data.at i).size = ml_tensor_info_get_size (h.in_info.at i))) ∧
    ((∀ info, E.data_create_status info ≠ ML_ERROR_TRY_AGAIN) →
      h.status ≠ ML_ERROR_TRY_AGAIN → p.worker.status ≠ ML_ERROR_TRY_AGAIN →
      ((ml_single_invoke E (some h) (some in_data) (some out) p during_wait signalled).1
          = ML_ERROR_TRY_AGAIN ↔
        (h.filter.isSome = true ∧ h.state = RUNNING ∧
          in_data.num_tensors = h.in_info.num_tensors ∧
          ∀ i, i < in_data.num_tensors →
            (in_data.at i).tensor ≠ none ∧
              (in_data.at i).size = ml_tensor_info_get_size (h.in_info.at i)))) ∧
    (h.state = RUNNING →
      (in_data.num_tensors ≠ h.in_info.num_tensors ∨
        ∃ i, i < in_data.num_tensors ∧
          ((in_data.at i).tensor = none ∨
            (in_data.at i).size ≠ ml_tensor_info_get_size (h.in_info.at i))) →
      ml_single_invoke E (some h) (some in_data) (some out) p during_wait signalled
        = (ML_ERROR_INVALID_PARAMETER, some h, p.store (some out) none)) ∧
    (h.filter = none ∨ h.state = JOIN_REQUESTED ∨ h.state = ERROR →
      ml_single_invoke E (some h) (some in_data) (some out) p during_wait signalled
        = (ML_ERROR_INVALID_PARAMETER, some h, p.store (some out) none)) := by
  rcases invoke_request_outcome h in_data out p hm with
    ⟨hreq, hbad⟩ | ⟨hreq, hf, hs, hn, hz⟩ | ⟨hreq, hf, hs⟩
  · have hcall : ml_single_invoke E (some h) (some in_data) (some out) p during_wait signalled
        = (ML_ERROR_INVALID_PARAMETER, some h, p.store (some out) none) := by
      simp only [ml_single_invoke, hreq]
    have hno : ¬(h.filter.isSome = true ∧ h.state = RUNNING ∧
        in_data.num_tensors = h.in_info.num_tensors ∧
        ∀ i, i < in_data.num_tensors →
          (in_data.at i).tensor ≠ none ∧
            (in_data.at i).size = ml_tensor_info_get_size (h.in_info.at i)) := by
      rintro ⟨c1, c2, c3, c4⟩
      rcases hbad with b | b | b | b | b
      · simp [b] at c1
      · rw [b] at c2
        exact thread_state.noConfusion c2
      · rw [b] at c2
        exact thread_state.noConfusion c2
      · exact b c3
      · rw [(input_sizes_ok_iff in_data h.in_info).2 c4] at b
        exact Bool.noConfusion b
    refine ⟨?_, ?_, fun _ _ => hcall, fun _ => hcall⟩
    · rw [hreq]
      constructor
      · intro hc
        simp at hc
      · intro hc
        exact absurd hc hno
    · intro _ _ _
      rw [hcall]
      constructor
      · intro hc
        simp at hc
      · intro hc
        exact absurd hc hno
  · have hcall : ml_single_invoke E (some h) (some in_data) (some out) p during_wait signalled
        = (ML_ERROR_TRY_AGAIN, some h, p.store (some out) none) := by
      simp only [ml_single_invoke, hreq]
    have hyes : h.filter.isSome = true ∧ h.state = RUNNING ∧
        in_data.num_tensors = h.in_info.num_tensors ∧
        ∀ i, i < in_data.num_tensors →
          (in_data.at i).tensor ≠ none ∧
            (in_data.at i).size = ml_tensor_info_get_size (h.in_info.at i) :=
      ⟨hf, hs, hn, (input_sizes_ok_iff in_data h.in_info).1 hz⟩
    refine ⟨⟨fun _ => hyes, fun _ => hreq⟩, ?_, ?_, ?_⟩
    · intro _ _ _
      rw [hcall]
      exact ⟨fun _ => hyes, fun _ => rfl⟩
    · intro _ hmis
      rcases hmis with b | b
      · exact absurd hn b
      · rw [(input_sizes_ok_eq_false_iff in_data h.in_info).2 b] at hz
        exact Bool.noConfusion hz
    · intro hc
      rcases hc with b | b | b
      · simp [b] at hf
      · rw [b] at hs
        exact thread_state.noConfusion hs
      · rw [b] at hs
        exact thread_state.noConfusion hs
  · have hno : ¬(h.filter.isSome = true ∧ h.state = RUNNING ∧
        in_data.num_tensors = h.in_info.num_tensors ∧
        ∀ i, i < in_data.num_tensors →
          (in_data.at i).tensor ≠ none ∧
            (in_data.at i).size = ml_tensor_info_get_size (h.in_info.at i)) := by
      rintro ⟨_, c2, _⟩
      rw [hs] at c2
      exact thread_state.noConfusion c2
    refine ⟨?_, ?_, ?_, ?_⟩
    · rw [hreq]
      constructor
      · intro hc
        simp at hc
      · intro hc
        exact absurd hc hno
    · intro hA hS hW
      have hst := wait_run_status E during_wait
        ({ h with input := some in_data, output := some out, state := RUNNING,
                  ignore_output := false },
         p.store (some out) none) hA hS (by simpa [proc.store] using hW)
      have hcall : (ml_single_invoke E (some h) (some in_data) (some out) p during_wait
          signalled).1 ≠ ML_ERROR_TRY_AGAIN := by
        simp only [ml_single_invoke, hreq, invoke_wakeup_status]
        split_ifs
        · exact hst
        · simp
      exact ⟨fun hc => absurd hc hcall, fun hc => absurd hc hno⟩
    · intro hr
      rw [hs] at hr
      exact thread_state.noConfusion hr
    · intro hc
      rcases hc with b | b | b
      · simp [b] at hf
      · rw [b] at hs
        exact thread_state.noConfusion hs
      · rw [b] at hs
        exact thread_state.noConfusion hs

/-- C12, at the sample handle with a request in flight: a matching input is
answered `ML_ERROR_TRY_AGAIN`, an input of three tensors
`ML_ERROR_INVALID_PARAMETER`; and with the state `JOIN_REQUESTED` a matching
input is answered `ML_ERROR_INVALID_PARAMETER`. -/
theorem invoke_try_again_iff_witness :
    sample_running.magic = ML_SINGLE_MAGIC ∧
    (ml_single_invoke (sample_E sample_klass) (some sample_running) (some sample_input) (some 7)
        sample_proc [.thread engine_returns] true).1 = ML_ERROR_TRY_AGAIN ∧
    ml_single_invoke (sample_E sample_klass) (some sample_running) (some sample_input3) (some 7)
        sample_proc [.thread engine_returns] true
      = (ML_ERROR_INVALID_PARAMETER, some sample_running, sample_proc.store (some 7) none) ∧
    ml_single_invoke (sample_E sample_klass)
        (some { sample_handle with state := JOIN_REQUESTED }) (some sample_input) (some 7)
        sample_proc [.thread engine_returns] true
      = (ML_ERROR_INVALID_PARAMETER, some { sample_handle with state := JOIN_REQUESTED },
         sample_proc.store (some 7) none) :=
  ⟨by decide,
    (invoke_try_again_iff (sample_E sample_klass) sample_running sample_input 7 sample_proc
      [.thread engine_returns] true (by decide)).2.1 (fun _ => by simp [sample_E]) (by decide)
      (by decide) |>.2 ⟨by decide, by decide, by decide, by decide⟩,
    (invoke_try_again_iff (sample_E sample_klass) sample_running sample_input3 7 sample_proc
      [.thread engine_returns] true (by decide)).2.2.1 (by decide) (Or.inl (by decide)),
    (invoke_try_again_iff (sample_E sample_klass) { sample_handle with state := JOIN_REQUESTED }
      sample_input 7 sample_proc [.thread engine_returns] true (by decide)).2.2.2
      (Or.inr (Or.inl (by decide)))⟩

end MlSingle
